import Mathlib

/-!
Verification of the procedural environment engine of `Scene3D.jsx`.

The JavaScript source is shallowly embedded over an arbitrary linear ordered
field `α` (JS numbers are idealised as field elements).  The library functions
`Math.sin`, `Math.cos`, `Math.sqrt` and the constant `Math.PI` are bundled in
a `MathOps` record, so the embedded definitions stay computable; the theorems
about the real program instantiate the record with `Real.sin`, `Real.cos`,
`Real.sqrt` and `Real.pi`.  Ambient randomness (`Math.random()`, whose values
lie in `[0,1)`) is modelled as a tape `ℕ → α` together with a cursor that each
draw advances by one; the cell generator's seeded rng is modelled exactly as
in the source from the seed derived from the cell coordinates.
-/

namespace Scene3D

/-- Bundled host math library: `Math.sin`, `Math.cos`, `Math.sqrt`, `Math.PI`. -/
structure MathOps (α : Type) where
  sin : α → α
  cos : α → α
  sqrt : α → α
  pi : α

variable {α : Type} [LinearOrderedField α] [FloorRing α]

/-- Embedding of `getRiverCurveOffset(z)` (Scene3D.jsx line 525):
`Math.sin(z * 0.02) * 4.0 + Math.sin(z * 0.05) * 2.0 + Math.sin(z * 0.1) * 0.8`. -/
def getRiverCurveOffset (m : MathOps α) (z : α) : α :=
  m.sin (z * (2/100)) * 4 + m.sin (z * (5/100)) * 2 + m.sin (z * (1/10)) * (4/5)

/-- One draw of the seeded rng in `createTerrainCell` (line 475):
`const x = Math.sin(seed++) * 10000; return x - Math.floor(x);`.
The caller advances the seed by one per draw. -/
def srand (m : MathOps α) (seed : α) : α :=
  Int.fract (m.sin seed * 10000)

/-- Application of the rotation matrix about the x-axis with the given cosine and
sine of the angle, as three.js applies `mesh.rotation.x` (Euler XYZ):
`(x, y, z) ↦ (x, c*y - s*z, s*y + c*z)`. -/
def rotXApply (c s : α) (p : α × α × α) : α × α × α :=
  (p.1, c * p.2.1 - s * p.2.2, s * p.2.1 + c * p.2.2)

/-- Plane x-coordinate of column `ix` of `THREE.PlaneGeometry(3, 200, 64, 64)`
built in `createNaturalRiver` (line 956): `ix * (3/64) - 3/2`. -/
def riverPlaneX (ix : ℕ) : α := (ix : α) * (3/64) - 3/2

/-- Plane y-coordinate of row `iy` of the same geometry: `100 - iy * (200/64)`
(three.js pushes `-(iy * segmentHeight - height/2)`). -/
def riverPlaneY (iy : ℕ) : α := 100 - (iy : α) * (200/64)

/-- The warp loop of `createNaturalRiver` (lines 960-967): each vertex's x gets
`getRiverCurveOffset` of the vertex's plane y added. -/
def riverWarpedVertex (m : MathOps α) (ix iy : ℕ) : α × α × α :=
  (riverPlaneX ix + getRiverCurveOffset m (riverPlaneY iy), riverPlaneY iy, 0)

/-- World position of a river mesh vertex: the warped vertex rotated by
`rotation.x = -Math.PI/2` (lines 982-984) and translated by the mesh position
`(0, -0.4, 0)`. -/
def riverWorldVertex (m : MathOps α) (ix iy : ℕ) : α × α × α :=
  let p := rotXApply (m.cos (-(m.pi / 2))) (m.sin (-(m.pi / 2))) (riverWarpedVertex m ix iy)
  (p.1, p.2.1 - 2/5, p.2.2)

/-- World z-coordinate shared by all vertices of mesh row `iy`. -/
def riverRowWorldZ (m : MathOps α) (iy : ℕ) : α := (riverWorldVertex m 0 iy).2.2

/-- Lateral (world x) center of mesh row `iy`: the midpoint of the row's two
edge vertices (columns 0 and 64). -/
def riverRowCenter (m : MathOps α) (iy : ℕ) : α :=
  ((riverWorldVertex m 0 iy).1 + (riverWorldVertex m 64 iy).1) / 2

end Scene3D

open Scene3D

/-- Helper: the triangle bound on the three sine terms of the curve. -/
theorem getRiverCurveOffset_abs_le {α : Type} [LinearOrderedField α] [FloorRing α]
    (m : MathOps α) (hs : ∀ x, |m.sin x| ≤ 1) (z : α) :
    |getRiverCurveOffset m z| ≤ 68/10 := by
  have h1 := hs (z * (2/100))
  have h2 := hs (z * (5/100))
  have h3 := hs (z * (1/10))
  have a1 : |m.sin (z * (2/100)) * 4| ≤ 4 := by
    rw [abs_mul]
    calc |m.sin (z * (2/100))| * |(4 : α)| ≤ 1 * |(4 : α)| := by
          apply mul_le_mul_of_nonneg_right h1 (abs_nonneg _)
      _ = 4 := by rw [one_mul, abs_of_nonneg]; norm_num
  have a2 : |m.sin (z * (5/100)) * 2| ≤ 2 := by
    rw [abs_mul]
    calc |m.sin (z * (5/100))| * |(2 : α)| ≤ 1 * |(2 : α)| := by
          apply mul_le_mul_of_nonneg_right h2 (abs_nonneg _)
      _ = 2 := by rw [one_mul, abs_of_nonneg]; norm_num
  have a3 : |m.sin (z * (1/10)) * (4/5)| ≤ 4/5 := by
    rw [abs_mul]
    calc |m.sin (z * (1/10))| * |(4/5 : α)| ≤ 1 * |(4/5 : α)| := by
          apply mul_le_mul_of_nonneg_right h3 (abs_nonneg _)
      _ = 4/5 := by rw [one_mul, abs_of_nonneg]; norm_num
  calc |getRiverCurveOffset m z|
      ≤ |m.sin (z * (2/100)) * 4 + m.sin (z * (5/100)) * 2| + |m.sin (z * (1/10)) * (4/5)| := by
        unfold getRiverCurveOffset; exact abs_add _ _
    _ ≤ (|m.sin (z * (2/100)) * 4| + |m.sin (z * (5/100)) * 2|) + |m.sin (z * (1/10)) * (4/5)| := by
        apply add_le_add_right (abs_add _ _)
    _ ≤ (4 + 2) + 4/5 := by
        apply add_le_add (add_le_add a1 a2) a3
    _ = 68/10 := by norm_num

/-- C1: over the reals with the host sine, `getRiverCurveOffset` is the stated
sum of three sine terms (hence a pure total function of `z`) and its value is
bounded by the sum of the three amplitudes `4.0 + 2.0 + 0.8 = 6.8` for every
real `z`. -/
theorem riverCurve_sum_of_sines_and_bounded (z : ℝ) :
    getRiverCurveOffset ⟨Real.sin, Real.cos, Real.sqrt, Real.pi⟩ z =
      Real.sin (z * (2/100)) * 4 + Real.sin (z * (5/100)) * 2 + Real.sin (z * (1/10)) * (4/5) ∧
    |getRiverCurveOffset ⟨Real.sin, Real.cos, Real.sqrt, Real.pi⟩ z| ≤ 68/10 := by
  constructor
  · rfl
  · exact getRiverCurveOffset_abs_le _ (fun x => Real.abs_sin_le_one x) z

/-- Helper: the curve offset at `z = 50` is strictly positive over the reals. -/
theorem riverCurve_at_fifty_pos :
    0 < getRiverCurveOffset (⟨Real.sin, Real.cos, Real.sqrt, Real.pi⟩ : MathOps ℝ) 50 := by
  have e1 : (50 : ℝ) * (2/100) = 1 := by norm_num
  have e2 : (50 : ℝ) * (5/100) = 5/2 := by norm_num
  have e3 : (50 : ℝ) * (1/10) = 5 := by norm_num
  have h1 : (3:ℝ)/4 < Real.sin 1 := by
    have h := Real.sin_gt_sub_cube (x := 1) one_pos le_rfl
    norm_num at h
    exact h
  have h2 : 0 < Real.sin (5/2 : ℝ) := by
    apply Real.sin_pos_of_pos_of_lt_pi (by norm_num)
    calc (5:ℝ)/2 < 3 := by norm_num
      _ < Real.pi := Real.pi_gt_three
  have h3 : (-1 : ℝ) ≤ Real.sin 5 := Real.neg_one_le_sin 5
  unfold getRiverCurveOffset
  simp only [e1, e2, e3]
  nlinarith [h1, h2, h3]

/-- C2 (code bug): the river water mesh row with world z-coordinate 50 (row
index 48, plane y = -50) is centered laterally at `getRiverCurveOffset (-50)`,
which is `-getRiverCurveOffset 50` and differs from the `getRiverCurveOffset 50`
used by the terrain-avoidance checks, bank placement, foam drift and waypoint
generation at that z: the `rotation.x = -π/2` that lays the warped plane into
the ground maps plane y to world `-z`, so the mesh is the mirror image of the
curve every other consumer uses. -/
theorem riverMesh_center_not_curve_at_row48 :
    riverRowWorldZ (⟨Real.sin, Real.cos, Real.sqrt, Real.pi⟩ : MathOps ℝ) 48 = 50 ∧
    riverRowCenter (⟨Real.sin, Real.cos, Real.sqrt, Real.pi⟩ : MathOps ℝ) 48 =
      getRiverCurveOffset (⟨Real.sin, Real.cos, Real.sqrt, Real.pi⟩ : MathOps ℝ) (-50) ∧
    riverRowCenter (⟨Real.sin, Real.cos, Real.sqrt, Real.pi⟩ : MathOps ℝ) 48 ≠
      getRiverCurveOffset (⟨Real.sin, Real.cos, Real.sqrt, Real.pi⟩ : MathOps ℝ)
        (riverRowWorldZ (⟨Real.sin, Real.cos, Real.sqrt, Real.pi⟩ : MathOps ℝ) 48) := by
  have hy : riverPlaneY (α := ℝ) 48 = -50 := by
    unfold riverPlaneY; norm_num
  have hz : riverRowWorldZ (⟨Real.sin, Real.cos, Real.sqrt, Real.pi⟩ : MathOps ℝ) 48 = 50 := by
    unfold riverRowWorldZ riverWorldVertex rotXApply riverWarpedVertex
    simp only [hy, Real.sin_neg, Real.sin_pi_div_two, Real.cos_neg, Real.cos_pi_div_two]
    norm_num
  have hc : riverRowCenter (⟨Real.sin, Real.cos, Real.sqrt, Real.pi⟩ : MathOps ℝ) 48 =
      getRiverCurveOffset (⟨Real.sin, Real.cos, Real.sqrt, Real.pi⟩ : MathOps ℝ) (-50) := by
    unfold riverRowCenter riverWorldVertex rotXApply riverWarpedVertex riverPlaneX
    simp only [hy]
    push_cast
    ring
  have hneg : getRiverCurveOffset (⟨Real.sin, Real.cos, Real.sqrt, Real.pi⟩ : MathOps ℝ) (-50) =
      -getRiverCurveOffset (⟨Real.sin, Real.cos, Real.sqrt, Real.pi⟩ : MathOps ℝ) 50 := by
    unfold getRiverCurveOffset
    simp only
    have a1 : (-50 : ℝ) * (2/100) = -(50 * (2/100)) := by ring
    have a2 : (-50 : ℝ) * (5/100) = -(50 * (5/100)) := by ring
    have a3 : (-50 : ℝ) * (1/10) = -(50 * (1/10)) := by ring
    rw [a1, a2, a3, Real.sin_neg, Real.sin_neg, Real.sin_neg]
    ring
  refine ⟨hz, hc, ?_⟩
  rw [hz, hc, hneg]
  have := riverCurve_at_fifty_pos
  intro h
  linarith [this, h.symm.le]

namespace Scene3D

variable {α : Type} [LinearOrderedField α] [FloorRing α]

/-- One decorative plant of `addVegetation` (lines 684-736); the five ambient
draws per item in source order: lateral offsets, type selector, yaw, scale. -/
structure VegItem (α : Type) where
  offsetX : α
  offsetZ : α
  vegType : α
  rotY : α
  vegScale : α

/-- A topic flag made by `createTopicFlag` (line 2159): a random topic index
`Math.floor(Math.random() * topics.length)` with `topics.length = 3`, and the
random flag colour draw. -/
structure TopicFlag (α : Type) where
  topicIdx : ℕ
  colorRand : α

/-- A placed terrain feature (`createTerrain`, lines 613-682).  The fields
`posX, posZ, height, scale, colorVar` hold the arguments computed by the
caller (seeded for grid cells); the remaining fields hold the ambient draws
made inside `createTerrain` itself. -/
structure Feature (α : Type) where
  posX : α
  posZ : α
  height : α
  scale : α
  colorVar : α
  terrainType : ℕ
  xVariation : α
  xzScale : α
  yScale : α
  rotY : α
  veg : List (VegItem α)
  flag : Option (TopicFlag α)

/-- Mesh position of a feature: `terrain.position.set(posX + xVariation, -0.5 + height, posZ)`
(line 643). -/
def Feature.meshPos (f : Feature α) : α × α × α :=
  (f.posX + f.xVariation, -(1/2) + f.height, f.posZ)

/-- Mesh scale of a feature: `terrain.scale.set(xzScale, yScale, xzScale)` (line 648). -/
def Feature.meshScale (f : Feature α) : α × α × α :=
  (f.xzScale, f.yScale, f.xzScale)

/-- One grass blade instance transform (plus its per-instance colour draws),
as written by `addGrassToTerrain` (lines 873-923). -/
structure GrassInst (α : Type) where
  posX : α
  posY : α
  posZ : α
  sclX : α
  sclY : α
  sclZ : α
  rotX : α
  rotY : α
  rotZ : α
  colorH : α
  colorS : α
  colorL : α
  deriving DecidableEq

/-- A grass instance batch: the fixed instance count and the per-instance
transform buffer (`this.grassInstances.push({mesh, terrain, count})`, line 935). -/
structure GrassPatch (α : Type) where
  count : ℕ
  instances : List (GrassInst α)
  deriving DecidableEq

/-- A stored terrain grid cell (`this.terrainGrid.push({key, x, z, features})`,
line 516).  The string key is `gridX + "," + gridZ`, equal for two cells
exactly when their coordinate pairs are equal, so it is modelled by the pair. -/
structure Cell (α : Type) where
  keyX : α
  keyZ : α
  features : List (Feature α)

/-- The scene state tracked by the embedding: the terrain grid, whether the
shared grass template (`this.grassGeometry` / `this.grassMaterial`) has been
built, the grass instance batches, and the foam particle pool (x, z pairs). -/
structure Scene (α : Type) where
  terrainGrid : List (Cell α)
  grassReady : Bool
  grassInstances : List (GrassPatch α)
  foam : List (α × α)

/-- The scene as the constructor leaves it: empty grid, no grass template,
no instance batches, no foam. -/
def emptyScene : Scene α := ⟨[], false, [], []⟩

/-- Embedding of `addVegetation(posX, posY, posZ, scale, count)` (lines 684-736):
`count` items, five ambient draws each, in source order. -/
def addVegetation (m : MathOps α) (scale : α) :
    ℕ → (ℕ → α) → ℕ → List (VegItem α) × ℕ
  | 0, _, k => ([], k)
  | n + 1, tape, k =>
      let item : VegItem α :=
        { offsetX := (tape k - 1/2) * scale * (3/2)
          offsetZ := (tape (k+1) - 1/2) * scale * (3/2)
          vegType := tape (k+2)
          rotY := tape (k+3) * (2 * m.pi)
          vegScale := 7/10 + tape (k+4) * (6/10) }
      let rest := addVegetation m scale n tape (k + 5)
      (item :: rest.1, rest.2)

/-- Embedding of `createTopicFlag(x, y, z)` (line 2159): draws the topic index
from the three registered topics and the random flag colour. -/
def createTopicFlag (tape : ℕ → α) (k : ℕ) : TopicFlag α × ℕ :=
  ({ topicIdx := (⌊tape k * 3⌋).toNat, colorRand := tape (k+1) }, k + 2)

/-- Embedding of `createTerrain(posX, height, posZ, scale, color)` (lines
613-682).  Ambient draws in source order: terrain type, x jitter, xz scale,
y scale, yaw, then `Math.floor(scale*3)+1` vegetation items (five draws each),
then the 30% topic-flag chance (two further draws when it hits).  The embedded
`colorVar` records the colour argument; geometry construction never fails in
the idealisation, so the `try/catch` that returns `null` is not taken. -/
def createTerrain (m : MathOps α) (posX height posZ scale colorVar : α)
    (tape : ℕ → α) (k : ℕ) : Feature α × ℕ :=
  let terrainType := (⌊tape k * 3⌋).toNat
  let xVariation := tape (k+1) * (3/10) - 3/20
  let xzScale := scale * (1 + tape (k+2) * (3/10))
  let yScale := scale * (3/10 + tape (k+3) * (3/10))
  let rotY := tape (k+4) * (2 * m.pi)
  let vegCount := (⌊scale * 3⌋).toNat + 1
  let veg := addVegetation m scale vegCount tape (k + 5)
  let fr := tape veg.2
  if fr < 3/10 then
    let fl := createTopicFlag tape (veg.2 + 1)
    ({ posX := posX, posZ := posZ, height := height, scale := scale, colorVar := colorVar
       terrainType := terrainType, xVariation := xVariation, xzScale := xzScale
       yScale := yScale, rotY := rotY, veg := veg.1, flag := some fl.1 }, fl.2)
  else
    ({ posX := posX, posZ := posZ, height := height, scale := scale, colorVar := colorVar
       terrainType := terrainType, xVariation := xVariation, xzScale := xzScale
       yScale := yScale, rotY := rotY, veg := veg.1, flag := none }, veg.2 + 1)

/-- One grass blade instance of `addGrassToTerrain` (lines 873-923), built from
the parent terrain mesh position `tp` and scale `ts`; eleven ambient draws in
source order (angle, radius, blade height, blade width, yaw, tilt amount, two
tilt draws, three colour draws). -/
def mkGrassInst (m : MathOps α) (tp ts : α × α × α) (tape : ℕ → α) (k : ℕ) :
    GrassInst α :=
  let theta := tape k * (2 * m.pi)
  let radius := m.sqrt (tape (k+1)) * ts.1 * (9/10)
  let x := tp.1 + m.cos theta * radius
  let z := tp.2.2 + m.sin theta * radius
  let terrainHeight := tp.2.1 + ts.2.1 * m.cos (radius / ts.1 * (m.pi / 2))
  let height := 3/20 + tape (k+2) * (1/4)
  let width := 3/50 + tape (k+3) * (1/25)
  let tiltAmount := tape (k+5) * (1/5)
  { posX := x, posY := terrainHeight - 1/20, posZ := z
    sclX := width, sclY := height, sclZ := width
    rotX := (tape (k+6) - 1/2) * tiltAmount
    rotY := tape (k+4) * (2 * m.pi)
    rotZ := (tape (k+7) - 1/2) * tiltAmount
    colorH := (tape (k+8) - 1/2) * (1/20)
    colorS := (tape (k+9) - 1/2) * (1/5)
    colorL := (tape (k+10) - 3/10) * (1/5) }

/-- Embedding of `addGrassToTerrain(terrain, baseScale, isRiverbank)` (lines
846-944).  When the shared grass template has not been created yet the guard
`if (!terrain || !this.grassGeometry || !this.grassMaterial) return;` makes the
call a no-op; otherwise a batch of
`Math.floor((baseScale*2.5)^2 * (isRiverbank ? 80 : 50))` instances is built
and appended to `this.grassInstances`. -/
def addGrassToTerrain (m : MathOps α) (s : Scene α) (tp ts : α × α × α)
    (baseScale : α) (isRiverbank : Bool) (tape : ℕ → α) (k : ℕ) : Scene α × ℕ :=
  if s.grassReady then
    let terrainSize := baseScale * (5/2)
    let density : α := if isRiverbank then 80 else 50
    let grassCount := (⌊terrainSize * terrainSize * density⌋).toNat
    let instances := (List.range grassCount).map (fun i => mkGrassInst m tp ts tape (k + 11 * i))
    ({ s with grassInstances := s.grassInstances ++ [⟨grassCount, instances⟩] },
      k + 11 * grassCount)
  else (s, k)

/-- The five river-intersection sample points of `createTerrainCell` (lines
449-455): the four cell corners (cell size `this.gridSize = 10`) and the center. -/
def cellSamplePoints (gridX gridZ : α) : List (α × α) :=
  [(gridX - 5, gridZ - 5), (gridX + 5, gridZ - 5),
   (gridX - 5, gridZ + 5), (gridX + 5, gridZ + 5), (gridX, gridZ)]

/-- The river-intersection test of `createTerrainCell` (lines 457-464): some
sample point lies within `riverWidth/2 + 1 = 2.5` of the curve laterally. -/
def cellIntersectsRiver (m : MathOps α) (gridX gridZ : α) : Bool :=
  (cellSamplePoints gridX gridZ).any
    (fun p => decide (|p.1 - getRiverCurveOffset m p.2| < 5/2))

/-- Intermediate state of the feature-generation loop of `createTerrainCell`:
the seeded rng position, the features kept so far, the scene (grass calls
thread through it), and the ambient tape cursor. -/
structure CellGenState (α : Type) where
  seed : α
  feats : List (Feature α)
  scene : Scene α
  k : ℕ

/-- One iteration of the feature loop of `createTerrainCell` (lines 483-513):
two seeded draws give the position offsets; a candidate within `2.5` of the
curve is skipped (`continue`), otherwise three more seeded draws give height,
scale and colour variation, `createTerrain` runs, and grass is attached. -/
def cellFeatureStep (m : MathOps α) (gridX gridZ : α) (tape : ℕ → α)
    (st : CellGenState α) : CellGenState α :=
  let offsetX := (srand m st.seed - 1/2) * 10 * (8/10)
  let offsetZ := (srand m (st.seed + 1) - 1/2) * 10 * (8/10)
  let posX := gridX + offsetX
  let posZ := gridZ + offsetZ
  if |posX - getRiverCurveOffset m posZ| < 5/2 then
    { st with seed := st.seed + 2 }
  else
    let height := 1/10 + srand m (st.seed + 2) * (4/10)
    let scale := 1/2 + srand m (st.seed + 3) * 1
    let colorVar := srand m (st.seed + 4) * (1/10)
    let ft := createTerrain m posX height posZ scale (colorVar - 1/20) tape st.k
    let sg := addGrassToTerrain m st.scene ft.1.meshPos ft.1.meshScale scale false tape ft.2
    { seed := st.seed + 5, feats := st.feats ++ [ft.1], scene := sg.1, k := sg.2 }

/-- The deterministic cell seed `Math.abs(gridX * 10000 + gridZ)` (line 474). -/
def cellSeed (gridX gridZ : α) : α := |gridX * 10000 + gridZ|

/-- The feature target of a cell: `Math.floor(rng() * 4) + 3` (line 481), drawn
from the first seeded value. -/
def cellFeatureCount (m : MathOps α) (gridX gridZ : α) : ℕ :=
  (⌊srand m (cellSeed gridX gridZ) * 4⌋).toNat + 3

/-- The full feature loop of `createTerrainCell` starting from scene `s` and
ambient cursor `k`; the seeded rng continues at `cellSeed + 1`. -/
def cellGenResult (m : MathOps α) (s : Scene α) (gridX gridZ : α)
    (tape : ℕ → α) (k : ℕ) : CellGenState α :=
  (List.range (cellFeatureCount m gridX gridZ)).foldl
    (fun st _ => cellFeatureStep m gridX gridZ tape st)
    ⟨cellSeed gridX gridZ + 1, [], s, k⟩

/-- Embedding of `createTerrainCell(gridX, gridZ)` (lines 432-522): no-op when
the key exists or the cell intersects the river; otherwise the seeded rng
(seed `Math.abs(gridX * 10000 + gridZ)`) drives `Math.floor(rng()*4)+3`
iterations of the feature loop, and the resulting cell is pushed. -/
def createTerrainCell (m : MathOps α) (s : Scene α) (gridX gridZ : α)
    (tape : ℕ → α) (k : ℕ) : Scene α × ℕ :=
  if s.terrainGrid.any (fun c => decide (c.keyX = gridX) && decide (c.keyZ = gridZ)) then
    (s, k)
  else if cellIntersectsRiver m gridX gridZ then (s, k)
  else
    let st := cellGenResult m s gridX gridZ tape k
    ({ st.scene with
        terrainGrid := st.scene.terrainGrid ++ [⟨gridX, gridZ, st.feats⟩] }, st.k)

end Scene3D

namespace Scene3D

variable {α : Type} [LinearOrderedField α] [FloorRing α]

/-- The seeded rng produces values in `[0, 1)`: lower bound. -/
theorem srand_nonneg (m : MathOps α) (s : α) : 0 ≤ srand m s :=
  Int.fract_nonneg _

/-- The seeded rng produces values in `[0, 1)`: upper bound. -/
theorem srand_lt_one (m : MathOps α) (s : α) : srand m s < 1 :=
  Int.fract_lt_one _

/-- Grass attachment never touches the terrain grid. -/
theorem addGrassToTerrain_terrainGrid (m : MathOps α) (s : Scene α)
    (tp ts : α × α × α) (b : α) (rb : Bool) (tape : ℕ → α) (k : ℕ) :
    (addGrassToTerrain m s tp ts b rb tape k).1.terrainGrid = s.terrainGrid := by
  unfold addGrassToTerrain
  by_cases h : s.grassReady = true
  · simp [h]
  · simp [h]

/-- Grass attachment never flips the template flag. -/
theorem addGrassToTerrain_grassReady (m : MathOps α) (s : Scene α)
    (tp ts : α × α × α) (b : α) (rb : Bool) (tape : ℕ → α) (k : ℕ) :
    (addGrassToTerrain m s tp ts b rb tape k).1.grassReady = s.grassReady := by
  unfold addGrassToTerrain
  by_cases h : s.grassReady = true
  · simp [h]
  · simp [h]

/-- Before the shared grass template exists, a grass attachment call is a
complete no-op (line 847). -/
theorem addGrassToTerrain_not_ready (m : MathOps α) (s : Scene α)
    (tp ts : α × α × α) (b : α) (rb : Bool) (tape : ℕ → α) (k : ℕ)
    (h : s.grassReady = false) :
    addGrassToTerrain m s tp ts b rb tape k = (s, k) := by
  unfold addGrassToTerrain
  simp [h]

/-- One cell-feature iteration never touches the terrain grid. -/
theorem cellFeatureStep_terrainGrid (m : MathOps α) (gx gz : α) (tape : ℕ → α)
    (st : CellGenState α) :
    (cellFeatureStep m gx gz tape st).scene.terrainGrid = st.scene.terrainGrid := by
  simp only [cellFeatureStep]
  split
  · rfl
  · simp [addGrassToTerrain_terrainGrid]

/-- One cell-feature iteration never flips the grass template flag. -/
theorem cellFeatureStep_grassReady (m : MathOps α) (gx gz : α) (tape : ℕ → α)
    (st : CellGenState α) :
    (cellFeatureStep m gx gz tape st).scene.grassReady = st.scene.grassReady := by
  simp only [cellFeatureStep]
  split
  · rfl
  · simp [addGrassToTerrain_grassReady]

/-- The whole feature loop never touches the terrain grid. -/
theorem cellGenFold_terrainGrid (m : MathOps α) (gx gz : α) (tape : ℕ → α)
    (l : List ℕ) (st : CellGenState α) :
    (l.foldl (fun st _ => cellFeatureStep m gx gz tape st) st).scene.terrainGrid =
      st.scene.terrainGrid := by
  induction l generalizing st with
  | nil => rfl
  | cons a l ih =>
      rw [List.foldl_cons, ih, cellFeatureStep_terrainGrid]

/-- When the cell key is already present, `createTerrainCell` is a no-op
(lines 437-439). -/
theorem createTerrainCell_key_present (m : MathOps α) (s : Scene α) (gx gz : α)
    (tape : ℕ → α) (k : ℕ)
    (h : (s.terrainGrid.any fun c => decide (c.keyX = gx) && decide (c.keyZ = gz)) = true) :
    createTerrainCell m s gx gz tape k = (s, k) := by
  unfold createTerrainCell
  simp [h]

/-- When the key is new but a sample point is inside the river buffer,
`createTerrainCell` skips the cell entirely (lines 466-468). -/
theorem createTerrainCell_skips_on_river (m : MathOps α) (s : Scene α) (gx gz : α)
    (tape : ℕ → α) (k : ℕ)
    (h1 : (s.terrainGrid.any fun c => decide (c.keyX = gx) && decide (c.keyZ = gz)) = false)
    (h2 : cellIntersectsRiver m gx gz = true) :
    createTerrainCell m s gx gz tape k = (s, k) := by
  unfold createTerrainCell
  simp [h1, h2]

/-- When the key is new and no sample point is inside the river buffer,
`createTerrainCell` appends exactly one cell with that key to the grid. -/
theorem createTerrainCell_stores (m : MathOps α) (s : Scene α) (gx gz : α)
    (tape : ℕ → α) (k : ℕ)
    (h1 : (s.terrainGrid.any fun c => decide (c.keyX = gx) && decide (c.keyZ = gz)) = false)
    (h2 : cellIntersectsRiver m gx gz = false) :
    ∃ feats, (createTerrainCell m s gx gz tape k).1.terrainGrid =
      s.terrainGrid ++ [⟨gx, gz, feats⟩] := by
  refine ⟨(cellGenResult m s gx gz tape k).feats, ?_⟩
  unfold createTerrainCell
  simp only [h1, h2, Bool.false_eq_true, if_false]
  have hg : (cellGenResult m s gx gz tape k).scene.terrainGrid = s.terrainGrid := by
    unfold cellGenResult
    rw [cellGenFold_terrainGrid]
  simp [hg]

/-- C3 (amended): for every scene state, coordinate pair, and random inputs,
calling `createTerrainCell` a second time with the same coordinates is a
complete no-op: the scene after the second call equals the scene after the
first, and the second call consumes no ambient randomness.  (The original
claim's `exactly one stored cell exists afterwards` fails for
river-intersecting coordinates, where zero cells are stored.) -/
theorem createTerrainCell_second_call_noop (m : MathOps α) (s : Scene α) (gx gz : α)
    (tape1 : ℕ → α) (k1 : ℕ) (tape2 : ℕ → α) (k2 : ℕ) :
    createTerrainCell m (createTerrainCell m s gx gz tape1 k1).1 gx gz tape2 k2 =
      ((createTerrainCell m s gx gz tape1 k1).1, k2) := by
  by_cases h1 : (s.terrainGrid.any fun c => decide (c.keyX = gx) && decide (c.keyZ = gz)) = true
  · rw [createTerrainCell_key_present m s gx gz tape1 k1 h1]
    exact createTerrainCell_key_present m s gx gz tape2 k2 h1
  · have h1f : (s.terrainGrid.any fun c => decide (c.keyX = gx) && decide (c.keyZ = gz)) = false := by
      rwa [Bool.not_eq_true] at h1
    by_cases h2 : cellIntersectsRiver m gx gz = true
    · rw [createTerrainCell_skips_on_river m s gx gz tape1 k1 h1f h2]
      exact createTerrainCell_skips_on_river m s gx gz tape2 k2 h1f h2
    · have h2f : cellIntersectsRiver m gx gz = false := by rwa [Bool.not_eq_true] at h2
      obtain ⟨feats, hg⟩ := createTerrainCell_stores m s gx gz tape1 k1 h1f h2f
      apply createTerrainCell_key_present
      rw [hg, List.any_append]
      simp

/-- The returned feature of `createTerrain` records the nominal x it was
called with. -/
theorem createTerrain_posX (m : MathOps α) (px h pz sc cv : α) (tape : ℕ → α) (k : ℕ) :
    (createTerrain m px h pz sc cv tape k).1.posX = px := by
  simp only [createTerrain]
  split <;> rfl

/-- The returned feature of `createTerrain` records the nominal z it was
called with. -/
theorem createTerrain_posZ (m : MathOps α) (px h pz sc cv : α) (tape : ℕ → α) (k : ℕ) :
    (createTerrain m px h pz sc cv tape k).1.posZ = pz := by
  simp only [createTerrain]
  split <;> rfl

/-- The returned feature of `createTerrain` records the height argument. -/
theorem createTerrain_height (m : MathOps α) (px h pz sc cv : α) (tape : ℕ → α) (k : ℕ) :
    (createTerrain m px h pz sc cv tape k).1.height = h := by
  simp only [createTerrain]
  split <;> rfl

/-- The returned feature of `createTerrain` records the scale argument. -/
theorem createTerrain_scale (m : MathOps α) (px h pz sc cv : α) (tape : ℕ → α) (k : ℕ) :
    (createTerrain m px h pz sc cv tape k).1.scale = sc := by
  simp only [createTerrain]
  split <;> rfl

/-- The returned feature of `createTerrain` records the colour argument. -/
theorem createTerrain_colorVar (m : MathOps α) (px h pz sc cv : α) (tape : ℕ → α) (k : ℕ) :
    (createTerrain m px h pz sc cv tape k).1.colorVar = cv := by
  simp only [createTerrain]
  split <;> rfl

/-- The returned feature's terrain type is floored from the first ambient draw. -/
theorem createTerrain_terrainType (m : MathOps α) (px h pz sc cv : α) (tape : ℕ → α) (k : ℕ) :
    (createTerrain m px h pz sc cv tape k).1.terrainType = (⌊tape k * 3⌋).toNat := by
  simp only [createTerrain]
  split <;> rfl

/-- A lateral position at least 10 from the world origin can never be inside
the 2.5-unit river buffer, since the curve itself stays within 6.8. -/
theorem far_from_river (m : MathOps α) (hs : ∀ x, |m.sin x| ≤ 1) (x z : α)
    (hx : 10 ≤ |x|) : ¬(|x - getRiverCurveOffset m z| < 5/2) := by
  have hoff := getRiverCurveOffset_abs_le m hs z
  have h1 : |x| - |getRiverCurveOffset m z| ≤ |x - getRiverCurveOffset m z| :=
    abs_sub_abs_le_abs_sub _ _
  intro hlt
  linarith

omit [FloorRing α] in
/-- The river-intersection test fails exactly when every sample point is clear
of the 2.5-unit buffer. -/
theorem cellIntersectsRiver_eq_false_iff (m : MathOps α) (gx gz : α) :
    cellIntersectsRiver m gx gz = false ↔
      ∀ p ∈ cellSamplePoints gx gz, ¬(|p.1 - getRiverCurveOffset m p.2| < 5/2) := by
  unfold cellIntersectsRiver
  rw [List.any_eq_false]
  simp only [decide_eq_true_eq]

/-- Every cell generates between 3 and 6 features (before river skipping):
the seeded draw is in `[0,1)` so `Math.floor(rng()*4)` is between 0 and 3. -/
theorem cellFeatureCount_bounds (m : MathOps α) (gx gz : α) :
    3 ≤ cellFeatureCount m gx gz ∧ cellFeatureCount m gx gz ≤ 6 := by
  unfold cellFeatureCount
  constructor
  · exact Nat.le_add_left 3 _
  · have h0 := srand_nonneg m (cellSeed gx gz)
    have h1 := srand_lt_one m (cellSeed gx gz)
    have hle : ⌊srand m (cellSeed gx gz) * 4⌋ ≤ 3 := by
      have : srand m (cellSeed gx gz) * 4 < 4 := by nlinarith
      have h4 : ⌊srand m (cellSeed gx gz) * 4⌋ < 4 := by
        rw [Int.floor_lt]
        exact_mod_cast this
      omega
    have := Int.toNat_le_toNat hle
    simp only [Int.toNat_ofNat] at this
    omega

/-- When the cell x-coordinate is at least 15 from the origin, one feature-loop
iteration always keeps its candidate: the in-cell jitter is less than 4 and
the curve stays within 6.8, so the candidate cannot be inside the buffer. -/
theorem cellFeatureStep_far (m : MathOps α) (hs : ∀ x, |m.sin x| ≤ 1)
    (gx gz : α) (hgx : 15 ≤ |gx|) (tape : ℕ → α) (st : CellGenState α) :
    (cellFeatureStep m gx gz tape st).feats.length = st.feats.length + 1 ∧
    ∀ f ∈ (cellFeatureStep m gx gz tape st).feats,
      f ∈ st.feats ∨ ¬(|f.posX - getRiverCurveOffset m f.posZ| < 5/2) := by
  have hr0 := srand_nonneg m st.seed
  have hr1 := srand_lt_one m st.seed
  have hd : |(srand m st.seed - 1/2) * 10 * (8/10)| ≤ 4 := by
    rw [abs_le]
    constructor <;> nlinarith
  have habs : 11 ≤ |gx + (srand m st.seed - 1/2) * 10 * (8/10)| := by
    have h2 : |gx| ≤ |gx + (srand m st.seed - 1/2) * 10 * (8/10)| +
        |(srand m st.seed - 1/2) * 10 * (8/10)| := by
      have := abs_add (gx + (srand m st.seed - 1/2) * 10 * (8/10))
        (-((srand m st.seed - 1/2) * 10 * (8/10)))
      simp only [abs_neg] at this
      calc |gx| = |gx + (srand m st.seed - 1/2) * 10 * (8/10) +
          -((srand m st.seed - 1/2) * 10 * (8/10))| := by ring_nf
        _ ≤ _ := this
    linarith
  have hfar : ¬(|gx + (srand m st.seed - 1/2) * 10 * (8/10) -
      getRiverCurveOffset m (gz + (srand m (st.seed + 1) - 1/2) * 10 * (8/10))| < 5/2) := by
    have hoff := getRiverCurveOffset_abs_le m hs
      (gz + (srand m (st.seed + 1) - 1/2) * 10 * (8/10))
    have h1 : |gx + (srand m st.seed - 1/2) * 10 * (8/10)| -
        |getRiverCurveOffset m (gz + (srand m (st.seed + 1) - 1/2) * 10 * (8/10))| ≤
        |gx + (srand m st.seed - 1/2) * 10 * (8/10) -
          getRiverCurveOffset m (gz + (srand m (st.seed + 1) - 1/2) * 10 * (8/10))| :=
      abs_sub_abs_le_abs_sub _ _
    intro hlt
    linarith
  simp only [cellFeatureStep]
  rw [if_neg hfar]
  constructor
  · simp
  · intro f hf
    simp only [List.mem_append, List.mem_singleton] at hf
    rcases hf with hf | hf
    · exact Or.inl hf
    · right
      subst hf
      rw [createTerrain_posX, createTerrain_posZ]
      exact hfar

/-- Fold form of `cellFeatureStep_far` over the whole feature loop. -/
theorem cellGenFold_far (m : MathOps α) (hs : ∀ x, |m.sin x| ≤ 1)
    (gx gz : α) (hgx : 15 ≤ |gx|) (tape : ℕ → α) (l : List ℕ) (st : CellGenState α) :
    (l.foldl (fun st _ => cellFeatureStep m gx gz tape st) st).feats.length =
      st.feats.length + l.length ∧
    ∀ f ∈ (l.foldl (fun st _ => cellFeatureStep m gx gz tape st) st).feats,
      f ∈ st.feats ∨ ¬(|f.posX - getRiverCurveOffset m f.posZ| < 5/2) := by
  induction l generalizing st with
  | nil => exact ⟨by simp, fun f hf => Or.inl hf⟩
  | cons a l ih =>
      rw [List.foldl_cons]
      obtain ⟨hstep_len, hstep_mem⟩ := cellFeatureStep_far m hs gx gz hgx tape st
      obtain ⟨hlen, hmem⟩ := ih (cellFeatureStep m gx gz tape st)
      constructor
      · rw [hlen, hstep_len, List.length_cons]
        omega
      · intro f hf
        rcases hmem f hf with h | h
        · exact hstep_mem f h
        · exact Or.inr h

end Scene3D

open Scene3D

/-- Helper: the origin cell (0,0) intersects the river: its center sample point
is at distance `|0 - offset(0)| = 0 < 2.5` from the curve. -/
theorem origin_cell_intersects :
    cellIntersectsRiver (⟨Real.sin, Real.cos, Real.sqrt, Real.pi⟩ : MathOps ℝ) 0 0 = true := by
  unfold cellIntersectsRiver
  rw [List.any_eq_true]
  refine ⟨(0, 0), ?_, ?_⟩
  · unfold cellSamplePoints
    simp
  · rw [decide_eq_true_eq]
    have h0 : getRiverCurveOffset (⟨Real.sin, Real.cos, Real.sqrt, Real.pi⟩ : MathOps ℝ) 0 = 0 := by
      unfold getRiverCurveOffset
      simp
    rw [h0]
    norm_num

/-- C3 counterexample: calling `createTerrainCell` twice at the origin cell
(grid coordinates `(0,0)`, which intersects the river) from the empty scene
leaves zero stored cells for that key — not the `exactly one` the claim
asserts. -/
theorem createTerrainCell_origin_twice_zero_cells :
    ((createTerrainCell (⟨Real.sin, Real.cos, Real.sqrt, Real.pi⟩ : MathOps ℝ)
        (createTerrainCell (⟨Real.sin, Real.cos, Real.sqrt, Real.pi⟩ : MathOps ℝ)
          emptyScene 0 0 (fun _ => 0) 0).1
        0 0 (fun _ => 0) 0).1.terrainGrid.filter
      (fun c => decide (c.keyX = (0:ℝ)) && decide (c.keyZ = 0))).length = 0 := by
  have hempty : ((emptyScene (α := ℝ)).terrainGrid.any
      fun c => decide (c.keyX = (0:ℝ)) && decide (c.keyZ = 0)) = false := rfl
  have h1 := createTerrainCell_skips_on_river
    (⟨Real.sin, Real.cos, Real.sqrt, Real.pi⟩ : MathOps ℝ) emptyScene 0 0 (fun _ => 0) 0
    hempty origin_cell_intersects
  rw [h1]
  have h2 := createTerrainCell_skips_on_river
    (⟨Real.sin, Real.cos, Real.sqrt, Real.pi⟩ : MathOps ℝ) emptyScene 0 0 (fun _ => 0) 0
    hempty origin_cell_intersects
  rw [h2]
  rfl

/-- Helper: the cell at world coordinates (30, 0) passes the five-point
river-intersection test: all its sample points are at least 25 from the
origin laterally while the curve stays within 6.8. -/
theorem cell30_clear :
    cellIntersectsRiver (⟨Real.sin, Real.cos, Real.sqrt, Real.pi⟩ : MathOps ℝ) 30 0 = false := by
  rw [cellIntersectsRiver_eq_false_iff]
  intro p hp
  have hs : ∀ x, |Real.sin x| ≤ 1 := fun x => Real.abs_sin_le_one x
  unfold cellSamplePoints at hp
  simp only [List.mem_cons, List.mem_singleton, List.not_mem_nil, or_false] at hp
  rcases hp with h | h | h | h | h <;>
    (subst h
     apply far_from_river _ hs
     norm_num)

/-- C4: for a fresh key, `createTerrainCell` stores a cell exactly when none of
the five sample points (four corners and center) lies within the river buffer
`riverWidth/2 + 1 = 2.5`; the river-overlapping origin cell `(0,0)` stores
nothing (zero features), while the cell at grid `(3,0)` (world x = 30) stores
between 3 and 6 features, none of them within the river buffer. -/
theorem createTerrainCell_buffer_characterisation :
    (∀ (m : MathOps ℝ) (s : Scene ℝ) (gx gz : ℝ) (tape : ℕ → ℝ) (k : ℕ),
      (s.terrainGrid.any fun c => decide (c.keyX = gx) && decide (c.keyZ = gz)) = false →
      ((createTerrainCell m s gx gz tape k).1.terrainGrid.length = s.terrainGrid.length + 1 ↔
        ∀ p ∈ cellSamplePoints gx gz, ¬(|p.1 - getRiverCurveOffset m p.2| < 5/2))) ∧
    (∀ (tape : ℕ → ℝ) (k : ℕ),
      createTerrainCell (⟨Real.sin, Real.cos, Real.sqrt, Real.pi⟩ : MathOps ℝ)
        emptyScene 0 0 tape k = (emptyScene, k)) ∧
    (∀ (tape : ℕ → ℝ) (k : ℕ), ∃ feats,
      (createTerrainCell (⟨Real.sin, Real.cos, Real.sqrt, Real.pi⟩ : MathOps ℝ)
          emptyScene 30 0 tape k).1.terrainGrid = [⟨30, 0, feats⟩] ∧
      3 ≤ feats.length ∧ feats.length ≤ 6 ∧
      ∀ f ∈ feats, ¬(|f.posX - getRiverCurveOffset
        (⟨Real.sin, Real.cos, Real.sqrt, Real.pi⟩ : MathOps ℝ) f.posZ| < 5/2)) := by
  refine ⟨?_, ?_, ?_⟩
  · intro m s gx gz tape k h1
    by_cases h2 : cellIntersectsRiver m gx gz = true
    · rw [createTerrainCell_skips_on_river m s gx gz tape k h1 h2]
      constructor
      · intro hlen
        exfalso
        have hx : s.terrainGrid.length = s.terrainGrid.length + 1 := hlen
        omega
      · intro hall
        exfalso
        have h2f : cellIntersectsRiver m gx gz = false :=
          (cellIntersectsRiver_eq_false_iff m gx gz).mpr hall
        rw [h2f] at h2
        exact absurd h2 (by simp)
    · have h2f : cellIntersectsRiver m gx gz = false := by rwa [Bool.not_eq_true] at h2
      obtain ⟨feats, hg⟩ := createTerrainCell_stores m s gx gz tape k h1 h2f
      rw [hg]
      constructor
      · intro _
        exact (cellIntersectsRiver_eq_false_iff m gx gz).mp h2f
      · intro _
        simp
  · intro tape k
    exact createTerrainCell_skips_on_river _ emptyScene 0 0 tape k rfl origin_cell_intersects
  · intro tape k
    have hs : ∀ x, |Real.sin x| ≤ 1 := fun x => Real.abs_sin_le_one x
    have h30 : (15 : ℝ) ≤ |(30 : ℝ)| := by norm_num
    obtain ⟨hlen, hmem⟩ := cellGenFold_far
      (⟨Real.sin, Real.cos, Real.sqrt, Real.pi⟩ : MathOps ℝ) hs 30 0 h30 tape
      (List.range (cellFeatureCount (⟨Real.sin, Real.cos, Real.sqrt, Real.pi⟩ : MathOps ℝ) 30 0))
      ⟨cellSeed 30 0 + 1, [], emptyScene, k⟩
    obtain ⟨hc3, hc6⟩ := cellFeatureCount_bounds
      (⟨Real.sin, Real.cos, Real.sqrt, Real.pi⟩ : MathOps ℝ) (30 : ℝ) 0
    refine ⟨(cellGenResult (⟨Real.sin, Real.cos, Real.sqrt, Real.pi⟩ : MathOps ℝ)
      emptyScene 30 0 tape k).feats, ?_, ?_, ?_, ?_⟩
    · unfold createTerrainCell
      rw [if_neg (by rw [show ((emptyScene (α := ℝ)).terrainGrid.any
          fun c => decide (c.keyX = (30:ℝ)) && decide (c.keyZ = 0)) = false from rfl]; simp)]
      rw [if_neg (by rw [cell30_clear]; simp)]
      have hgrid : (cellGenResult (⟨Real.sin, Real.cos, Real.sqrt, Real.pi⟩ : MathOps ℝ)
          emptyScene 30 0 tape k).scene.terrainGrid = [] := by
        unfold cellGenResult
        rw [cellGenFold_terrainGrid]
        rfl
      simp [hgrid]
    · unfold cellGenResult
      rw [hlen]
      simpa using hc3
    · unfold cellGenResult
      rw [hlen]
      simpa using hc6
    · intro f hf
      unfold cellGenResult at hf
      rcases hmem f hf with h | h
      · exact absurd h (List.not_mem_nil f)
      · exact h

/-- Witness for the buffer characterisation: conjunct (a) applied at the
fresh key `(70, 0)` of the empty scene. -/
theorem createTerrainCell_buffer_witness :
    ((emptyScene (α := ℝ)).terrainGrid.any
        fun c => decide (c.keyX = (70:ℝ)) && decide (c.keyZ = 0)) = false ∧
    ((createTerrainCell (⟨Real.sin, Real.cos, Real.sqrt, Real.pi⟩ : MathOps ℝ)
        emptyScene 70 0 (fun _ => 0) 0).1.terrainGrid.length =
      (emptyScene (α := ℝ)).terrainGrid.length + 1 ↔
      ∀ p ∈ cellSamplePoints (70:ℝ) 0,
        ¬(|p.1 - getRiverCurveOffset
            (⟨Real.sin, Real.cos, Real.sqrt, Real.pi⟩ : MathOps ℝ) p.2| < 5/2)) :=
  ⟨rfl, createTerrainCell_buffer_characterisation.1
    (⟨Real.sin, Real.cos, Real.sqrt, Real.pi⟩ : MathOps ℝ)
    emptyScene 70 0 (fun _ => 0) 0 rfl⟩

namespace Scene3D

variable {α : Type} [LinearOrderedField α] [FloorRing α]

/-- Accumulator for the non-gridded generation loops: the scene threaded
through grass calls, the features created so far, and the ambient cursor. -/
structure GenAcc (α : Type) where
  scene : Scene α
  feats : List (Feature α)
  k : ℕ

/-- One iteration of the left-side loop of `createExpandedTerrain` (lines
539-561): `z = (rand-0.5)*18`, then `leftX = min(curveOffset - 2.5,
-2.5 - curveOffset - rand*5)` (with `safeDistance = riverWidth/2 + 0.5 = 2`,
`minSafeDistanceLeft - 0.5 = curveOffset - 2.5`), then height, scale and
colour draws, `createTerrain`, and a grass attachment. -/
def expandedLeftStep (m : MathOps α) (tape : ℕ → α) (a : GenAcc α) : GenAcc α :=
  let z := (tape a.k - 1/2) * 18
  let curveOffset := getRiverCurveOffset m z
  let leftX := min (curveOffset - 5/2) (-(5/2) - curveOffset - tape (a.k+1) * 5)
  let height := 1/10 + tape (a.k+2) * (3/10)
  let scale := 1/2 + tape (a.k+3) * (8/10)
  let colorVar := tape (a.k+4) * (1/10)
  let ft := createTerrain m leftX height z scale (colorVar - 1/20) tape (a.k+5)
  let sg := addGrassToTerrain m a.scene ft.1.meshPos ft.1.meshScale scale false tape ft.2
  ⟨sg.1, a.feats ++ [ft.1], sg.2⟩

/-- One iteration of the right-side loop of `createExpandedTerrain` (lines
564-585): `rightX = max(curveOffset + 2.5, 2.5 + curveOffset + rand*5)`. -/
def expandedRightStep (m : MathOps α) (tape : ℕ → α) (a : GenAcc α) : GenAcc α :=
  let z := (tape a.k - 1/2) * 18
  let curveOffset := getRiverCurveOffset m z
  let rightX := max (curveOffset + 5/2) (5/2 + curveOffset + tape (a.k+1) * 5)
  let height := 1/10 + tape (a.k+2) * (3/10)
  let scale := 1/2 + tape (a.k+3) * (8/10)
  let colorVar := tape (a.k+4) * (1/10)
  let ft := createTerrain m rightX height z scale (colorVar - 1/20) tape (a.k+5)
  let sg := addGrassToTerrain m a.scene ft.1.meshPos ft.1.meshScale scale false tape ft.2
  ⟨sg.1, a.feats ++ [ft.1], sg.2⟩

/-- One iteration of the near-bank detail loop of `createExpandedTerrain`
(lines 588-610): alternating side `(-1)^(i+1)`, `z = (rand-0.5)*18`, position
`side*(riverWidth/2 + curveOffset*0.5) + side*(0.1 + rand*0.3)`, small height
and scale, fixed bank colour `0x2d6a29` (embedded as its decimal value),
`createTerrain`, and a denser riverbank grass attachment. -/
def nearBankStep (m : MathOps α) (i : ℕ) (tape : ℕ → α) (a : GenAcc α) : GenAcc α :=
  let side : α := if i % 2 = 0 then -1 else 1
  let z := (tape a.k - 1/2) * 18
  let curveOffset := getRiverCurveOffset m z
  let edgeX := side * (3/2 + curveOffset * (1/2))
  let xOffset := side * (1/10 + tape (a.k+1) * (3/10))
  let x := edgeX + xOffset
  let height := 1/20 + tape (a.k+2) * (3/20)
  let scale := 3/10 + tape (a.k+3) * (4/10)
  let ft := createTerrain m x height z scale 2976297 tape (a.k+4)
  let sg := addGrassToTerrain m a.scene ft.1.meshPos ft.1.meshScale scale true tape ft.2
  ⟨sg.1, a.feats ++ [ft.1], sg.2⟩

/-- The 20 left-side iterations of `createExpandedTerrain`. -/
def expandedLeftLoop (m : MathOps α) (tape : ℕ → α) (a : GenAcc α) : GenAcc α :=
  (List.range 20).foldl (fun a _ => expandedLeftStep m tape a) a

/-- The 20 right-side iterations of `createExpandedTerrain`. -/
def expandedRightLoop (m : MathOps α) (tape : ℕ → α) (a : GenAcc α) : GenAcc α :=
  (List.range 20).foldl (fun a _ => expandedRightStep m tape a) a

/-- The 16 near-bank detail iterations of `createExpandedTerrain`. -/
def nearBankLoop (m : MathOps α) (tape : ℕ → α) (a : GenAcc α) : GenAcc α :=
  (List.range 16).foldl (fun a i => nearBankStep m i tape a) a

/-- Embedding of `createExpandedTerrain()` (lines 533-611): the three loops in
source order, starting from an empty feature accumulator. -/
def createExpandedTerrain (m : MathOps α) (s : Scene α) (tape : ℕ → α) (k : ℕ) :
    GenAcc α :=
  nearBankLoop m tape (expandedRightLoop m tape (expandedLeftLoop m tape ⟨s, [], k⟩))

/-- The grid coordinates visited by `generateTerrainGrid` (lines 413-430):
`x, z ∈ [-8, 8]`, skipping `(0,0)` and every column with `|x| ≤ 1` (the inner
`Math.abs(z) <= 8` is always true for this range). -/
def gridIndexList : List (ℤ × ℤ) :=
  ((List.range 17).map (fun i => (i : ℤ) - 8)).flatMap (fun x =>
    ((List.range 17).map (fun i => (i : ℤ) - 8)).filterMap (fun z =>
      if x = 0 ∧ z = 0 then none
      else if |x| ≤ 1 ∧ |z| ≤ 8 then none
      else some (x, z)))

/-- Embedding of `generateTerrainGrid()` (lines 413-430): one `createTerrainCell`
per visited grid coordinate (world coordinates are the indices times
`this.gridSize = 10`), then `createExpandedTerrain`. -/
def generateTerrainGrid (m : MathOps α) (s : Scene α) (tape : ℕ → α) (k : ℕ) :
    Scene α × ℕ :=
  let sk := gridIndexList.foldl
    (fun (sk : Scene α × ℕ) c =>
      createTerrainCell m sk.1 ((c.1 : α) * 10) ((c.2 : α) * 10) tape sk.2)
    (s, k)
  let a := createExpandedTerrain m sk.1 tape sk.2
  (a.scene, a.k)

/-- Embedding of `addInfiniteEnvironment()` (lines 394-411): the giant ground
plane is purely decorative; the tracked effect is `generateTerrainGrid`. -/
def addInfiniteEnvironment (m : MathOps α) (s : Scene α) (tape : ℕ → α) (k : ℕ) :
    Scene α × ℕ :=
  generateTerrainGrid m s tape k

/-- Embedding of `addRiverbankVegetation(x, y, z, scale)` (lines 1148-1191):
`Math.floor(2 + rand*3)` reed meshes, seven ambient draws each (two offsets,
height, width, three tilt/yaw draws).  The reeds are decorative meshes that
are not tracked; only the draw consumption is modelled. -/
def addRiverbankVegetation (s : Scene α) (tape : ℕ → α) (k : ℕ) : Scene α × ℕ :=
  let plantCount := 2 + (⌊tape k * 3⌋).toNat
  (s, k + 1 + 7 * plantCount)

/-- Embedding of `createTerrainFeatures(x, y, z, scale, isRiverbank)` (lines
1107-1146): a small dome mesh at `(x, y, z)` with scale
`(scale, scale*0.3, scale)` and one random yaw draw; riverbank features get a
dense grass attachment and, with probability 1/2 (short-circuited for
non-riverbank calls), riverbank vegetation. -/
def createTerrainFeatures (m : MathOps α) (x y z scale : α) (isRiverbank : Bool)
    (s : Scene α) (tape : ℕ → α) (k : ℕ) : Scene α × ℕ :=
  let sg := if isRiverbank then
      addGrassToTerrain m s (x, y, z) (scale, scale * (3/10), scale) scale true tape (k+1)
    else (s, k+1)
  if isRiverbank then
    if tape sg.2 > 1/2 then addRiverbankVegetation sg.1 tape (sg.2 + 1)
    else (sg.1, sg.2 + 1)
  else sg

/-- Embedding of `createRiverbankTerrain(side, zPos, curveOffset, segmentLength)`
(lines 1024-1105): bank width/height draws, a two-way terrain type draw (type 1
displaces 30 of the 35 bank-plane vertices, one draw each: the six columns with
`x < bankWidth*0.8` on the displaced side times five rows), and a 40% chance
(`rand > 0.6`) of spawning a `createTerrainFeatures` riverbank feature near
`centerX = side*(riverWidth/2 + curveOffset*0.5) + side*bankWidth/2`. -/
def createRiverbankTerrain (m : MathOps α) (side zPos curveOffset segmentLength : α)
    (s : Scene α) (tape : ℕ → α) (k : ℕ) : Scene α × ℕ :=
  let bankWidth := 3/2 + tape k * (1/2)
  let innerEdgeX := side * (3/2 + curveOffset * (1/2))
  let centerX := innerEdgeX + side * (bankWidth / 2)
  let bankHeight := 1/10 + tape (k+1) * (3/20)
  let terrainType := (⌊tape (k+2) * 2⌋).toNat
  let k3 := if terrainType = 1 then k + 3 + 30 else k + 3
  if tape k3 > 3/5 then
    let fx := centerX + side * (tape (k3+1) * (3/10))
    let fy := bankHeight * (1/2) - 2/5
    let fz := zPos + segmentLength * (tape (k3+2) * (8/10))
    let fscale := 1/5 + tape (k3+3) * (3/10)
    createTerrainFeatures m fx fy fz fscale true s tape (k3+4)
  else (s, k3 + 1)

/-- Embedding of `createNaturalRiverbanks(riverLength)` (lines 1004-1022):
for each side `-1, 1` and each of 40 segments, one `createRiverbankTerrain`
at `zPos = (i/40)*200 - 100` with segment length 5 and the shared curve
offset at `zPos`. -/
def createNaturalRiverbanks (m : MathOps α) (s : Scene α) (tape : ℕ → α) (k : ℕ) :
    Scene α × ℕ :=
  let s1 := (List.range 40).foldl
    (fun (sk : Scene α × ℕ) i =>
      let zPos : α := (i : α) / 40 * 200 - 100
      createRiverbankTerrain m (-1) zPos (getRiverCurveOffset m zPos) 5 sk.1 tape sk.2)
    (s, k)
  (List.range 40).foldl
    (fun (sk : Scene α × ℕ) i =>
      let zPos : α := (i : α) / 40 * 200 - 100
      createRiverbankTerrain m 1 zPos (getRiverCurveOffset m zPos) 5 sk.1 tape sk.2)
    s1

/-- Embedding of `addEnhancedRiverbankDetails()` (lines 1247-1307): 100
decorative pebble/sand/mud/plant details.  None of them is a terrain feature,
a grid cell, or a grass batch, so the tracked scene state is unchanged; the
(variable) ambient draw consumption of the detail creators is not modelled,
which no tracked claim depends on since they all hold for every cursor. -/
def addEnhancedRiverbankDetails (s : Scene α) (k : ℕ) : Scene α × ℕ :=
  (s, k)

/-- Embedding of `createInfiniteWaterFoamParticles()` (lines 1194-1245): 800
particles, each at a random `z ∈ [-100, 100)` with lateral position
`curveOffset(z) + (rand-0.5) * (riverWidth/2 * 0.9) * 2`. -/
def createInfiniteWaterFoamParticles (m : MathOps α) (s : Scene α)
    (tape : ℕ → α) (k : ℕ) : Scene α × ℕ :=
  let ps := (List.range 800).map (fun i =>
    let z := tape (k + 2*i) * 200 - 100
    let widthOffset := (tape (k + 2*i + 1) - 1/2) * (3/2 * (9/10)) * 2
    (getRiverCurveOffset m z + widthOffset, z))
  ({ s with foam := ps }, k + 1600)

/-- Embedding of `createNaturalRiver()` (lines 946-1002): the warped water mesh
(described pointwise by `riverWorldVertex`), then the banks, the decorative
details, and the foam pool. -/
def createNaturalRiver (m : MathOps α) (s : Scene α) (tape : ℕ → α) (k : ℕ) :
    Scene α × ℕ :=
  let s1 := createNaturalRiverbanks m s tape k
  let s2 := addEnhancedRiverbankDetails s1.1 s1.2
  createInfiniteWaterFoamParticles m s2.1 tape s2.2

/-- Embedding of `createGrassInstances()` (lines 738-814): builds the shared
blade geometry and material once and stores them on the controller; the
tracked effect is that grass attachment calls stop being no-ops. -/
def createGrassInstances (s : Scene α) : Scene α :=
  { s with grassReady := true }

/-- The generation part of `init()` (lines 290-382) in source order:
`addInfiniteEnvironment` (line 310), `createNaturalRiver` (line 360),
`createGrassInstances` (line 366), starting from the constructor state.
The model loader is asynchronous and mutates nothing during `init`. -/
def initScene (m : MathOps α) (tape : ℕ → α) (k : ℕ) : Scene α × ℕ :=
  let s1 := addInfiniteEnvironment m emptyScene tape k
  let s2 := createNaturalRiver m s1.1 tape s1.2
  (createGrassInstances s2.1, s2.2)

end Scene3D

namespace Scene3D

variable {α : Type} [LinearOrderedField α] [FloorRing α]

/-- One wind update of a grass instance (lines 1736-1743): a sinusoidal factor
of elapsed time and the blade's world position re-derives the two tilt angles;
position, scale and yaw are decomposed and written back unchanged. -/
def windInst (m : MathOps α) (t : α) (g : GrassInst α) : GrassInst α :=
  let windFactor := m.sin (t * (4/10) + g.posX * (1/2) + g.posZ * (1/2)) * (3/100)
  { g with rotX := windFactor * (3/10), rotZ := windFactor * (1/2) }

/-- One inner iteration of `animateGrass` (lines 1725-1749): draw a random
instance index below the patch count, read that transform, wind-update it and
write it back; a failed read (`getMatrixAt` throwing) is skipped. -/
def windInstStep (m : MathOps α) (t : α) (count : ℕ) (tape : ℕ → α)
    (ik : List (GrassInst α) × ℕ) : List (GrassInst α) × ℕ :=
  let idx := (⌊tape ik.2 * (count : α)⌋).toNat
  match ik.1.get? idx with
  | none => (ik.1, ik.2 + 1)
  | some g => (ik.1.set idx (windInst m t g), ik.2 + 1)

/-- The per-patch wind pass of `animateGrass`: `Math.min(15, count)` single
instance updates (line 1724). -/
def windPatchUpdate (m : MathOps α) (t : α) (tape : ℕ → α)
    (p : GrassPatch α) (k : ℕ) : GrassPatch α × ℕ :=
  let r := (List.range (min 15 p.count)).foldl
    (fun ik _ => windInstStep m t p.count tape ik) (p.instances, k)
  ({ p with instances := r.1 }, r.2)

/-- One outer iteration of `animateGrass` (lines 1701-1757): draw a random
patch index, and run the per-patch wind pass on it; a missing patch
(out-of-range index) is skipped after the draw. -/
def animateGrassStep (m : MathOps α) (t : α) (tape : ℕ → α)
    (pk : List (GrassPatch α) × ℕ) : List (GrassPatch α) × ℕ :=
  let idx := (⌊tape pk.2 * (pk.1.length : α)⌋).toNat
  match pk.1.get? idx with
  | none => (pk.1, pk.2 + 1)
  | some p =>
      let pu := windPatchUpdate m t tape p (pk.2 + 1)
      (pk.1.set idx pu.1, pu.2)

/-- Embedding of `animateGrass(time)` (lines 1689-1762): an early return when
no grass batch exists, otherwise `Math.min(5, patches)` randomly chosen patch
updates. -/
def animateGrass (m : MathOps α) (t : α) (s : Scene α) (tape : ℕ → α) (k : ℕ) :
    Scene α × ℕ :=
  if s.grassInstances.isEmpty then (s, k)
  else
    let maxUpd := min 5 s.grassInstances.length
    let r := (List.range maxUpd).foldl
      (fun pk _ => animateGrassStep m t tape pk) (s.grassInstances, k)
    ({ s with grassInstances := r.1 }, r.2)

/-- A scene transition that leaves the grass template flag unchanged and, as
long as the template does not exist, the grass batches untouched. -/
def GrassInert (s t : Scene α) : Prop :=
  t.grassReady = s.grassReady ∧ (s.grassReady = false → t.grassInstances = s.grassInstances)

omit [LinearOrderedField α] [FloorRing α] in
theorem GrassInert.grefl (s : Scene α) : GrassInert s s := ⟨rfl, fun _ => rfl⟩

omit [LinearOrderedField α] [FloorRing α] in
theorem GrassInert.gcomp {s t u : Scene α} (h1 : GrassInert s t) (h2 : GrassInert t u) :
    GrassInert s u := by
  refine ⟨h2.1.trans h1.1, fun hf => ?_⟩
  rw [h2.2 (h1.1.trans hf), h1.2 hf]

omit [LinearOrderedField α] [FloorRing α] in
theorem grassInert_foldl_prod {β : Type} (f : Scene α × ℕ → β → Scene α × ℕ)
    (hf : ∀ sk b, GrassInert sk.1 (f sk b).1) (l : List β) (sk : Scene α × ℕ) :
    GrassInert sk.1 (l.foldl f sk).1 := by
  induction l generalizing sk with
  | nil => exact GrassInert.grefl _
  | cons a l ih => exact (hf sk a).gcomp (ih (f sk a))

theorem grassInert_addGrassToTerrain (m : MathOps α) (s : Scene α)
    (tp ts : α × α × α) (b : α) (rb : Bool) (tape : ℕ → α) (k : ℕ) :
    GrassInert s (addGrassToTerrain m s tp ts b rb tape k).1 := by
  refine ⟨addGrassToTerrain_grassReady m s tp ts b rb tape k, fun hf => ?_⟩
  rw [addGrassToTerrain_not_ready m s tp ts b rb tape k hf]

theorem grassInert_cellFeatureStep (m : MathOps α) (gx gz : α) (tape : ℕ → α)
    (st : CellGenState α) :
    GrassInert st.scene (cellFeatureStep m gx gz tape st).scene := by
  simp only [cellFeatureStep]
  split
  · exact GrassInert.grefl _
  · exact grassInert_addGrassToTerrain m st.scene _ _ _ false tape _

theorem grassInert_createTerrainCell (m : MathOps α) (s : Scene α) (gx gz : α)
    (tape : ℕ → α) (k : ℕ) :
    GrassInert s (createTerrainCell m s gx gz tape k).1 := by
  unfold createTerrainCell
  split
  · exact GrassInert.grefl _
  · split
    · exact GrassInert.grefl _
    · have hfold : GrassInert s (cellGenResult m s gx gz tape k).scene := by
        unfold cellGenResult
        have : ∀ (l : List ℕ) (st : CellGenState α),
            GrassInert st.scene
              ((l.foldl (fun st _ => cellFeatureStep m gx gz tape st) st)).scene := by
          intro l
          induction l with
          | nil => exact fun st => GrassInert.grefl _
          | cons a l ih =>
              intro st
              exact (grassInert_cellFeatureStep m gx gz tape st).gcomp
                (ih (cellFeatureStep m gx gz tape st))
        exact this _ _
      exact hfold.gcomp ⟨rfl, fun _ => rfl⟩

theorem grassInert_expandedLeftStep (m : MathOps α) (tape : ℕ → α) (a : GenAcc α) :
    GrassInert a.scene (expandedLeftStep m tape a).scene :=
  grassInert_addGrassToTerrain m a.scene _ _ _ false tape _

theorem grassInert_expandedRightStep (m : MathOps α) (tape : ℕ → α) (a : GenAcc α) :
    GrassInert a.scene (expandedRightStep m tape a).scene :=
  grassInert_addGrassToTerrain m a.scene _ _ _ false tape _

theorem grassInert_nearBankStep (m : MathOps α) (i : ℕ) (tape : ℕ → α) (a : GenAcc α) :
    GrassInert a.scene (nearBankStep m i tape a).scene :=
  grassInert_addGrassToTerrain m a.scene _ _ _ true tape _

omit [LinearOrderedField α] [FloorRing α] in
theorem grassInert_foldl_acc (f : GenAcc α → ℕ → GenAcc α)
    (hf : ∀ a b, GrassInert a.scene (f a b).scene) (l : List ℕ) (a : GenAcc α) :
    GrassInert a.scene (l.foldl f a).scene := by
  induction l generalizing a with
  | nil => exact GrassInert.grefl _
  | cons x l ih => exact (hf a x).gcomp (ih (f a x))

theorem grassInert_createExpandedTerrain (m : MathOps α) (s : Scene α)
    (tape : ℕ → α) (k : ℕ) :
    GrassInert s (createExpandedTerrain m s tape k).scene := by
  unfold createExpandedTerrain nearBankLoop expandedRightLoop expandedLeftLoop
  have h1 := grassInert_foldl_acc (fun a _ => expandedLeftStep m tape a)
    (fun a b => grassInert_expandedLeftStep m tape a) (List.range 20) ⟨s, [], k⟩
  have h2 := grassInert_foldl_acc (fun a _ => expandedRightStep m tape a)
    (fun a b => grassInert_expandedRightStep m tape a) (List.range 20)
    ((List.range 20).foldl (fun a _ => expandedLeftStep m tape a) ⟨s, [], k⟩)
  have h3 := grassInert_foldl_acc (fun a i => nearBankStep m i tape a)
    (fun a b => grassInert_nearBankStep m b tape a) (List.range 16)
    ((List.range 20).foldl (fun a _ => expandedRightStep m tape a)
      ((List.range 20).foldl (fun a _ => expandedLeftStep m tape a) ⟨s, [], k⟩))
  exact (h1.gcomp h2).gcomp h3

theorem grassInert_createTerrainFeatures (m : MathOps α) (x y z sc : α) (rb : Bool)
    (s : Scene α) (tape : ℕ → α) (k : ℕ) :
    GrassInert s (createTerrainFeatures m x y z sc rb s tape k).1 := by
  unfold createTerrainFeatures addRiverbankVegetation
  cases rb with
  | false => exact GrassInert.grefl _
  | true =>
      simp only [if_true]
      split
      · exact grassInert_addGrassToTerrain m s _ _ _ true tape _
      · exact grassInert_addGrassToTerrain m s _ _ _ true tape _

theorem grassInert_createRiverbankTerrain (m : MathOps α)
    (side zPos curveOffset segmentLength : α) (s : Scene α) (tape : ℕ → α) (k : ℕ) :
    GrassInert s (createRiverbankTerrain m side zPos curveOffset segmentLength s tape k).1 := by
  simp only [createRiverbankTerrain]
  split <;> split <;>
    first
      | exact grassInert_createTerrainFeatures m _ _ _ _ true s tape _
      | exact GrassInert.grefl _

theorem grassInert_createInfiniteWaterFoamParticles (m : MathOps α) (s : Scene α)
    (tape : ℕ → α) (k : ℕ) :
    GrassInert s (createInfiniteWaterFoamParticles m s tape k).1 := by
  constructor
  · simp only [createInfiniteWaterFoamParticles]
  · intro _
    simp only [createInfiniteWaterFoamParticles]

theorem grassInert_createNaturalRiverbanks (m : MathOps α) (s : Scene α)
    (tape : ℕ → α) (k : ℕ) :
    GrassInert s (createNaturalRiverbanks m s tape k).1 := by
  unfold createNaturalRiverbanks
  have h1 := grassInert_foldl_prod
    (fun (sk : Scene α × ℕ) i =>
      createRiverbankTerrain m (-1) ((i : α) / 40 * 200 - 100)
        (getRiverCurveOffset m ((i : α) / 40 * 200 - 100)) 5 sk.1 tape sk.2)
    (fun sk i => grassInert_createRiverbankTerrain m _ _ _ _ sk.1 tape sk.2)
    (List.range 40) (s, k)
  have h2 := grassInert_foldl_prod
    (fun (sk : Scene α × ℕ) i =>
      createRiverbankTerrain m 1 ((i : α) / 40 * 200 - 100)
        (getRiverCurveOffset m ((i : α) / 40 * 200 - 100)) 5 sk.1 tape sk.2)
    (fun sk i => grassInert_createRiverbankTerrain m _ _ _ _ sk.1 tape sk.2)
    (List.range 40)
    ((List.range 40).foldl
      (fun (sk : Scene α × ℕ) i =>
        createRiverbankTerrain m (-1) ((i : α) / 40 * 200 - 100)
          (getRiverCurveOffset m ((i : α) / 40 * 200 - 100)) 5 sk.1 tape sk.2)
      (s, k))
  exact h1.gcomp h2

theorem grassInert_createNaturalRiver (m : MathOps α) (s : Scene α)
    (tape : ℕ → α) (k : ℕ) :
    GrassInert s (createNaturalRiver m s tape k).1 := by
  unfold createNaturalRiver addEnhancedRiverbankDetails
  exact (grassInert_createNaturalRiverbanks m s tape k).gcomp
    (grassInert_createInfiniteWaterFoamParticles m _ tape _)

theorem grassInert_generateTerrainGrid (m : MathOps α) (s : Scene α)
    (tape : ℕ → α) (k : ℕ) :
    GrassInert s (generateTerrainGrid m s tape k).1 := by
  simp only [generateTerrainGrid]
  have h1 := grassInert_foldl_prod
    (fun (sk : Scene α × ℕ) (c : ℤ × ℤ) =>
      createTerrainCell m sk.1 ((c.1 : α) * 10) ((c.2 : α) * 10) tape sk.2)
    (fun sk c => grassInert_createTerrainCell m sk.1 _ _ tape sk.2)
    gridIndexList (s, k)
  exact h1.gcomp (grassInert_createExpandedTerrain m _ tape _)

end Scene3D

/-- C6: the shared grass template is created only after all terrain-cell,
expanded-terrain and riverbank generation has run; since `addGrassToTerrain`
returns immediately without the template, every grass call made during setup
creates no batch, the batch list is empty when the render loop starts, and the
per-frame wind step `animateGrass` is a no-op on the initialised scene. -/
theorem init_grass_template_late_so_no_batches {α : Type} [LinearOrderedField α]
    [FloorRing α] (m : MathOps α) (tape : ℕ → α) (k : ℕ) :
    (initScene m tape k).1.grassReady = true ∧
    (initScene m tape k).1.grassInstances = [] ∧
    ∀ (t : α) (tape2 : ℕ → α) (k2 : ℕ),
      animateGrass m t (initScene m tape k).1 tape2 k2 = ((initScene m tape k).1, k2) := by
  have h1 := (grassInert_generateTerrainGrid m emptyScene tape k).gcomp
    (grassInert_createNaturalRiver m (generateTerrainGrid m emptyScene tape k).1 tape
      (generateTerrainGrid m emptyScene tape k).2)
  have he : (initScene m tape k).1.grassInstances = [] := by
    simp only [initScene, addInfiniteEnvironment, createGrassInstances]
    exact h1.2 rfl
  refine ⟨?_, he, ?_⟩
  · simp only [initScene, createGrassInstances]
  · intro t tape2 k2
    simp only [animateGrass, he]
    simp

namespace Scene3D

variable {α : Type} [LinearOrderedField α] [FloorRing α]

/-- Iterating the wind animation over a list of frames, each with its own
elapsed time and random input. -/
def iterFrames (m : MathOps α) (frames : List (α × (ℕ → α) × ℕ)) (s : Scene α) :
    Scene α :=
  frames.foldl (fun s f => (animateGrass m f.1 s f.2.1 f.2.2).1) s

/-- Two lists agree except on at most `n` positions (and have equal length). -/
def ListClose {γ : Type} (n : ℕ) (l l2 : List γ) : Prop :=
  l2.length = l.length ∧ ∃ T : Finset ℕ, T.card ≤ n ∧ ∀ j ∉ T, l2.get? j = l.get? j

theorem ListClose.lrefl {γ : Type} (n : ℕ) (l : List γ) : ListClose n l l :=
  ⟨rfl, ∅, by simp, fun _ _ => rfl⟩

theorem ListClose.lmono {γ : Type} {a b : ℕ} {l l2 : List γ} (hab : a ≤ b)
    (h : ListClose a l l2) : ListClose b l l2 := by
  obtain ⟨hlen, T, hT, hout⟩ := h
  exact ⟨hlen, T, hT.trans hab, hout⟩

theorem ListClose.lcomp {γ : Type} {a b : ℕ} {l1 l2 l3 : List γ}
    (h1 : ListClose a l1 l2) (h2 : ListClose b l2 l3) : ListClose (a + b) l1 l3 := by
  obtain ⟨hl1, T1, hT1, ho1⟩ := h1
  obtain ⟨hl2, T2, hT2, ho2⟩ := h2
  refine ⟨hl2.trans hl1, T1 ∪ T2, ?_, fun j hj => ?_⟩
  · exact (Finset.card_union_le T1 T2).trans (Nat.add_le_add hT1 hT2)
  · rw [Finset.mem_union] at hj
    push_neg at hj
    rw [ho2 j hj.2, ho1 j hj.1]

theorem ListClose.set {γ : Type} (l : List γ) (idx : ℕ) (x : γ) :
    ListClose 1 l (l.set idx x) := by
  refine ⟨List.length_set l idx x, {idx}, by simp, fun j hj => ?_⟩
  rw [Finset.mem_singleton] at hj
  exact List.get?_set_ne x l (fun h => hj h.symm)

end Scene3D

namespace Scene3D

variable {α : Type} [LinearOrderedField α] [FloorRing α]

/-- One inner wind iteration changes at most one instance slot. -/
theorem windInstStep_close (m : MathOps α) (t : α) (c : ℕ) (tape : ℕ → α)
    (ik : List (GrassInst α) × ℕ) :
    ListClose 1 ik.1 (windInstStep m t c tape ik).1 := by
  simp only [windInstStep]
  split
  · exact (ListClose.lrefl 0 _).lmono (by omega)
  · exact ListClose.set _ _ _

/-- The inner wind fold over `n` iterations changes at most `n` instance slots. -/
theorem windInstFold_close (m : MathOps α) (t : α) (c : ℕ) (tape : ℕ → α)
    (l : List ℕ) (ik : List (GrassInst α) × ℕ) :
    ListClose l.length ik.1
      ((l.foldl (fun ik _ => windInstStep m t c tape ik) ik)).1 := by
  induction l generalizing ik with
  | nil => exact ListClose.lrefl 0 _
  | cons a l ih =>
      rw [List.foldl_cons, List.length_cons]
      have h1 := windInstStep_close m t c tape ik
      have h2 := ih (windInstStep m t c tape ik)
      exact (h1.lcomp h2).lmono (by omega)

/-- A per-patch wind pass keeps the count and changes at most 15 instances. -/
theorem windPatchUpdate_close (m : MathOps α) (t : α) (tape : ℕ → α)
    (p : GrassPatch α) (k : ℕ) :
    (windPatchUpdate m t tape p k).1.count = p.count ∧
    ListClose 15 p.instances (windPatchUpdate m t tape p k).1.instances := by
  constructor
  · rfl
  · have h := windInstFold_close m t p.count tape (List.range (min 15 p.count))
      (p.instances, k)
    simp only [List.length_range] at h
    exact h.lmono (by omega)

/-- Per-index bounded evolution of a patch list: any patch present at an index
before and after keeps its count and has at most `n` instance slots changed. -/
def PatchEvol (n : ℕ) (l l2 : List (GrassPatch α)) : Prop :=
  ∀ i p q, l.get? i = some p → l2.get? i = some q →
    q.count = p.count ∧ ListClose n p.instances q.instances

omit [LinearOrderedField α] [FloorRing α] in
theorem PatchEvol.prefl (n : ℕ) (l : List (GrassPatch α)) : PatchEvol n l l := by
  intro i p q hp hq
  rw [hp] at hq
  cases hq
  exact ⟨rfl, (ListClose.lrefl 0 _).lmono (by omega)⟩

omit [LinearOrderedField α] [FloorRing α] in
theorem PatchEvol.pmono {a b : ℕ} {l l2 : List (GrassPatch α)} (hab : a ≤ b)
    (h : PatchEvol a l l2) : PatchEvol b l l2 := by
  intro i p q hp hq
  obtain ⟨hc, hcl⟩ := h i p q hp hq
  exact ⟨hc, hcl.lmono hab⟩

omit [LinearOrderedField α] [FloorRing α] in
theorem PatchEvol.pcomp {a b : ℕ} {l1 l2 l3 : List (GrassPatch α)}
    (hlen : l2.length = l1.length)
    (h1 : PatchEvol a l1 l2) (h2 : PatchEvol b l2 l3) : PatchEvol (a + b) l1 l3 := by
  intro i p q hp hq
  cases hmid : l2.get? i with
  | none =>
      exfalso
      rw [List.get?_eq_none] at hmid
      have : l1.get? i = none := List.get?_eq_none.mpr (hlen ▸ hmid)
      rw [this] at hp
      exact Option.noConfusion hp
  | some r =>
      obtain ⟨hc1, hl1⟩ := h1 i p r hp hmid
      obtain ⟨hc2, hl2⟩ := h2 i r q hmid hq
      exact ⟨hc2.trans hc1, hl1.lcomp hl2⟩

end Scene3D

namespace Scene3D

variable {α : Type} [LinearOrderedField α] [FloorRing α]

/-- A trivial rational math library used to exercise the embedded code on
concrete inputs: every transcendental call returns 0. -/
def zeroOps : MathOps ℚ := ⟨fun _ => 0, fun _ => 0, fun _ => 0, 0⟩

/-- One outer wind iteration changes at most one patch slot, and any patch
keeps its count with at most 15 instance slots changed. -/
theorem animateGrassStep_close (m : MathOps α) (t : α) (tape : ℕ → α)
    (pk : List (GrassPatch α) × ℕ) :
    ListClose 1 pk.1 (animateGrassStep m t tape pk).1 ∧
    PatchEvol 15 pk.1 (animateGrassStep m t tape pk).1 := by
  simp only [animateGrassStep]
  split
  · exact ⟨(ListClose.lrefl 0 _).lmono (by omega), PatchEvol.prefl 15 _⟩
  · rename_i p heq
    refine ⟨ListClose.set _ _ _, ?_⟩
    intro i p2 q hp2 hq
    by_cases hi : i = (⌊tape pk.2 * (pk.1.length : α)⌋).toNat
    · subst hi
      rw [List.get?_set_eq, heq] at hq
      rw [heq] at hp2
      injection hp2 with hp2e
      subst hp2e
      simp only [Option.map_some] at hq
      cases hq
      exact windPatchUpdate_close m t tape p (pk.2 + 1)
    · rw [List.get?_set_ne _ _ (fun h => hi h.symm)] at hq
      rw [hp2] at hq
      cases hq
      exact ⟨rfl, (ListClose.lrefl 0 _).lmono (by omega)⟩

/-- The outer wind fold over `n` iterations changes at most `n` patch slots and
at most `15 * n` instance slots of any one patch. -/
theorem animateGrassFold_close (m : MathOps α) (t : α) (tape : ℕ → α)
    (l : List ℕ) (pk : List (GrassPatch α) × ℕ) :
    ListClose l.length pk.1
      (l.foldl (fun pk _ => animateGrassStep m t tape pk) pk).1 ∧
    PatchEvol (15 * l.length) pk.1
      (l.foldl (fun pk _ => animateGrassStep m t tape pk) pk).1 := by
  induction l generalizing pk with
  | nil => exact ⟨ListClose.lrefl 0 _, PatchEvol.prefl 0 _⟩
  | cons a l ih =>
      rw [List.foldl_cons]
      obtain ⟨hs1, hs2⟩ := animateGrassStep_close m t tape pk
      obtain ⟨hf1, hf2⟩ := ih (animateGrassStep m t tape pk)
      refine ⟨(hs1.lcomp hf1).lmono (by simp only [List.length_cons]; omega), ?_⟩
      have := hs2.pcomp hs1.1 hf2
      refine this.pmono (by simp only [List.length_cons]; omega)

/-- A single `animateGrass` call changes at most 5 patch slots, and any patch
keeps its count with at most 75 (five passes of at most 15) instance slots
changed. -/
theorem animateGrass_close (m : MathOps α) (t : α) (s : Scene α) (tape : ℕ → α)
    (k : ℕ) :
    ListClose 5 s.grassInstances (animateGrass m t s tape k).1.grassInstances ∧
    PatchEvol 75 s.grassInstances (animateGrass m t s tape k).1.grassInstances := by
  simp only [animateGrass]
  split
  · exact ⟨(ListClose.lrefl 0 _).lmono (by omega), (PatchEvol.prefl 0 _).pmono (by omega)⟩
  · obtain ⟨h1, h2⟩ := animateGrassFold_close m t tape
      (List.range (min 5 s.grassInstances.length)) (s.grassInstances, k)
    simp only [List.length_range] at h1 h2
    exact ⟨h1.lmono (by omega), h2.pmono (by omega)⟩

/-- The per-patch count and buffer size are invariant under one frame. -/
theorem animateGrass_counts (m : MathOps α) (t : α) (s : Scene α) (tape : ℕ → α)
    (k : ℕ) :
    (animateGrass m t s tape k).1.grassInstances.map
        (fun p => (p.count, p.instances.length)) =
      s.grassInstances.map (fun p => (p.count, p.instances.length)) := by
  obtain ⟨⟨hlen, _⟩, hev⟩ := animateGrass_close m t s tape k
  apply List.ext_get?
  intro i
  rw [List.get?_map, List.get?_map]
  cases hp : s.grassInstances.get? i with
  | none =>
      rw [List.get?_eq_none] at hp
      have : (animateGrass m t s tape k).1.grassInstances.get? i = none :=
        List.get?_eq_none.mpr (hlen ▸ hp)
      rw [this]
  | some p =>
      cases hq : (animateGrass m t s tape k).1.grassInstances.get? i with
      | none =>
          exfalso
          rw [List.get?_eq_none, hlen] at hq
          rw [List.get?_eq_none.mpr hq] at hp
          exact Option.noConfusion hp
      | some q =>
          obtain ⟨hc, hl⟩ := hev i p q hp hq
          simp only [Option.map_some']
          rw [hc, hl.1]

/-- Counts and buffer sizes are invariant across any number of frames. -/
theorem iterFrames_counts (m : MathOps α) (frames : List (α × (ℕ → α) × ℕ))
    (s : Scene α) :
    (iterFrames m frames s).grassInstances.map
        (fun p => (p.count, p.instances.length)) =
      s.grassInstances.map (fun p => (p.count, p.instances.length)) := by
  induction frames generalizing s with
  | nil => rfl
  | cons f frames ih =>
      unfold iterFrames at ih ⊢
      rw [List.foldl_cons]
      rw [ih ((animateGrass m f.1 s f.2.1 f.2.2).1)]
      exact animateGrass_counts m f.1 s f.2.1 f.2.2

end Scene3D

open Scene3D

/-- C7 (amended): a grass batch's instance count is fixed at creation to
`floor((baseScale*2.5)^2 * density)` with density 80 for riverbank features
and 50 otherwise; each `animateGrass` call performs at most 5 patch passes,
each touching at most 15 instances of its (randomly chosen) patch — so at most
5 distinct patches change per frame, and any one patch has at most 75 instance
slots rewritten in a frame (15 per pass; the original claim's per-patch bound
of 15 fails when one patch is drawn several times in a frame) — and every
patch's count and buffer size are unchanged across any number of frames. -/
theorem grassPatch_count_fixed_and_bounded_wind {α : Type} [LinearOrderedField α]
    [FloorRing α] :
    (∀ (m : MathOps α) (s : Scene α) (tp ts : α × α × α) (b : α) (rb : Bool)
        (tape : ℕ → α) (k : ℕ), s.grassReady = true →
      ∃ p, (addGrassToTerrain m s tp ts b rb tape k).1.grassInstances =
          s.grassInstances ++ [p] ∧
        p.count = (⌊b * (5/2) * (b * (5/2)) * (if rb then (80:α) else 50)⌋).toNat ∧
        p.instances.length = p.count) ∧
    (∀ (m : MathOps α) (t : α) (s : Scene α) (tape : ℕ → α) (k : ℕ),
      ListClose 5 s.grassInstances (animateGrass m t s tape k).1.grassInstances ∧
      PatchEvol 75 s.grassInstances (animateGrass m t s tape k).1.grassInstances) ∧
    (∀ (m : MathOps α) (frames : List (α × (ℕ → α) × ℕ)) (s : Scene α),
      (iterFrames m frames s).grassInstances.map
          (fun p => (p.count, p.instances.length)) =
        s.grassInstances.map (fun p => (p.count, p.instances.length))) := by
  refine ⟨?_, ?_, ?_⟩
  · intro m s tp ts b rb tape k h
    refine ⟨⟨(⌊b * (5/2) * (b * (5/2)) * (if rb then (80:α) else 50)⌋).toNat,
      (List.range ((⌊b * (5/2) * (b * (5/2)) * (if rb then (80:α) else 50)⌋).toNat)).map
        (fun i => mkGrassInst m tp ts tape (k + 11 * i))⟩, ?_, rfl, by simp⟩
    simp [addGrassToTerrain, h]
  · intro m t s tape k
    exact animateGrass_close m t s tape k
  · intro m frames s
    exact iterFrames_counts m frames s

namespace Scene3D

variable {α : Type} [LinearOrderedField α] [FloorRing α]

/-- A grass instance at the origin with nonzero tilt, used to make wind writes
observable. -/
def windInstOne : GrassInst α := ⟨0, 0, 0, 0, 0, 0, 1, 0, 1, 0, 0, 0⟩

/-- A patch of 30 tilted instances. -/
def windPatchThirty : GrassPatch α := ⟨30, List.replicate 30 windInstOne⟩

/-- A scene with two patches, so `Math.min(5, patches) = 2` outer passes run. -/
def windSceneTwo : Scene α := ⟨[], true, [windPatchThirty, ⟨0, []⟩], []⟩

/-- A random tape (all values in `[0,1)`, as `Math.random` produces) that
selects patch 0 in both outer passes and enumerates instance indices 0-14 in
the first pass and 15-29 in the second. -/
def windTapeTwice : ℕ → α := fun n =>
  if n = 0 ∨ n = 16 then 0
  else if n ≤ 15 then ((n : α) - 1) / 30
  else ((n : α) - 2) / 30

end Scene3D

/-- C7 witness: the batch-creation conjunct applied at a concrete ready scene:
a non-riverbank feature of base scale 1 gets a batch of
`floor(2.5^2 * 50) = 312` instances. -/
theorem grassPatch_count_witness :
    (⟨[], true, [], []⟩ : Scene ℚ).grassReady = true ∧
    ∃ p, (addGrassToTerrain zeroOps ⟨[], true, [], []⟩ (0, 0, 0) (0, 0, 0) 1 false
        (fun _ => 0) 0).1.grassInstances = ([] : List (GrassPatch ℚ)) ++ [p] ∧
      p.count = (⌊(1:ℚ) * (5/2) * (1 * (5/2)) * (if false then (80:ℚ) else 50)⌋).toNat ∧
      p.instances.length = p.count :=
  ⟨rfl, grassPatch_count_fixed_and_bounded_wind.1 zeroOps ⟨[], true, [], []⟩
    (0, 0, 0) (0, 0, 0) 1 false (fun _ => 0) 0 rfl⟩

namespace Scene3D

variable {α : Type} [LinearOrderedField α] [FloorRing α]

/-- Reduction of one inner wind iteration when the drawn index hits a present
instance. -/
theorem windInstStep_spec (m : MathOps α) (t : α) (c : ℕ) (tape : ℕ → α)
    (ik : List (GrassInst α) × ℕ) (j : ℕ) (g : GrassInst α)
    (hidx : (⌊tape ik.2 * (c : α)⌋).toNat = j) (hg : ik.1.get? j = some g) :
    windInstStep m t c tape ik = (ik.1.set j (windInst m t g), ik.2 + 1) := by
  simp only [windInstStep]
  rw [hidx, hg]

/-- Characterisation of the inner wind fold when the random draws enumerate the
consecutive instance indices `base, base+1, …, base+n-1`: the cursor advances
by `n` and exactly those indices receive a wind update of their original
transform. -/
theorem windInstFold_arith (m : MathOps α) (t : α) (c : ℕ) (tape : ℕ → α)
    (l : List (GrassInst α)) (base : ℕ) :
    ∀ (n k0 : ℕ),
      (∀ i, i < n → (⌊tape (k0 + i) * (c : α)⌋).toNat = base + i) →
      base + n ≤ l.length →
      ((List.range n).foldl (fun ik _ => windInstStep m t c tape ik) (l, k0)).2 = k0 + n ∧
      ∀ j, ((List.range n).foldl (fun ik _ => windInstStep m t c tape ik) (l, k0)).1.get? j =
        if base ≤ j ∧ j < base + n then (l.get? j).map (windInst m t) else l.get? j := by
  intro n
  induction n with
  | zero =>
      intro k0 _ _
      refine ⟨rfl, fun j => ?_⟩
      rw [if_neg (by omega)]
      rfl
  | succ n ih =>
      intro k0 hfl hlen
      obtain ⟨ihk, ihget⟩ := ih k0 (fun i hi => hfl i (by omega)) (by omega)
      rw [List.range_succ, List.foldl_append, List.foldl_cons, List.foldl_nil]
      have hbn : base + n < l.length := by omega
      have horig : l.get? (base + n) = some (l.get ⟨base + n, hbn⟩) :=
        List.get?_eq_get hbn
      have hget : ((List.range n).foldl (fun ik _ => windInstStep m t c tape ik)
          (l, k0)).1.get? (base + n) = some (l.get ⟨base + n, hbn⟩) := by
        rw [ihget (base + n), if_neg (by omega), horig]
      have hidx : (⌊tape (((List.range n).foldl (fun ik _ => windInstStep m t c tape ik)
          (l, k0)).2) * (c : α)⌋).toNat = base + n := by
        rw [ihk]
        exact hfl n (by omega)
      have hstep := windInstStep_spec m t c tape
        ((List.range n).foldl (fun ik _ => windInstStep m t c tape ik) (l, k0))
        (base + n) (l.get ⟨base + n, hbn⟩) hidx hget
      rw [hstep, ihk]
      refine ⟨rfl, fun j => ?_⟩
      by_cases hj : j = base + n
      · subst hj
        rw [List.get?_set_eq, hget, horig]
        rw [if_pos (by omega)]
        rfl
      · rw [List.get?_set_ne _ _ (fun h => hj h.symm), ihget j]
        by_cases hin : base ≤ j ∧ j < base + n
        · rw [if_pos hin, if_pos (by omega)]
        · rw [if_neg hin, if_neg (by omega)]

end Scene3D

namespace Scene3D

variable {α : Type} [LinearOrderedField α] [FloorRing α]

/-- Reduction of one outer wind iteration when the drawn index hits a present
patch. -/
theorem animateGrassStep_spec (m : MathOps α) (t : α) (tape : ℕ → α)
    (L : List (GrassPatch α)) (k : ℕ) (i : ℕ) (p : GrassPatch α)
    (hidx : (⌊tape k * (L.length : α)⌋).toNat = i) (hp : L.get? i = some p) :
    animateGrassStep m t tape (L, k) =
      (L.set i (windPatchUpdate m t tape p (k + 1)).1,
        (windPatchUpdate m t tape p (k + 1)).2) := by
  simp only [animateGrassStep]
  rw [hidx, hp]

/-- Unfolding equation of the per-patch wind pass. -/
theorem windPatchUpdate_eq (m : MathOps α) (t : α) (tape : ℕ → α)
    (p : GrassPatch α) (k : ℕ) :
    windPatchUpdate m t tape p k =
      ({ p with instances := ((List.range (min 15 p.count)).foldl
          (fun ik _ => windInstStep m t p.count tape ik) (p.instances, k)).1 },
        ((List.range (min 15 p.count)).foldl
          (fun ik _ => windInstStep m t p.count tape ik) (p.instances, k)).2) := rfl

/-- Unfolding equation of `animateGrass` when grass batches exist. -/
theorem animateGrass_eq_of_ne_nil (m : MathOps α) (t : α) (s : Scene α)
    (tape : ℕ → α) (k : ℕ) (h : s.grassInstances.isEmpty = false) :
    animateGrass m t s tape k =
      ({ s with grassInstances := ((List.range (min 5 s.grassInstances.length)).foldl
          (fun pk _ => animateGrassStep m t tape pk) (s.grassInstances, k)).1 },
        ((List.range (min 5 s.grassInstances.length)).foldl
          (fun pk _ => animateGrassStep m t tape pk) (s.grassInstances, k)).2) := by
  simp only [animateGrass, h, Bool.false_eq_true, if_false]

/-- The wind tape's first inner pass enumerates instance indices 0-14. -/
theorem windTapeTwice_floor_one (i : ℕ) (hi : i < 15) :
    (⌊windTapeTwice (1 + i) * ((30 : ℕ) : α)⌋).toNat = 0 + i := by
  have h1 : ¬(1 + i = 0 ∨ 1 + i = 16) := by omega
  have h2 : 1 + i ≤ 15 := by omega
  simp only [windTapeTwice]
  rw [if_neg h1, if_pos h2]
  have hc : ((1 + i : ℕ) : α) - 1 = (i : α) := by push_cast; ring
  have h30 : ((30 : ℕ) : α) = (30 : α) := by norm_num
  rw [hc, h30, div_mul_cancel₀ _ (by norm_num : (30:α) ≠ 0), Int.floor_natCast]
  simp

/-- The wind tape's second inner pass enumerates instance indices 15-29. -/
theorem windTapeTwice_floor_two (i : ℕ) (hi : i < 15) :
    (⌊windTapeTwice (17 + i) * ((30 : ℕ) : α)⌋).toNat = 15 + i := by
  have h1 : ¬(17 + i = 0 ∨ 17 + i = 16) := by omega
  have h2 : ¬(17 + i ≤ 15) := by omega
  simp only [windTapeTwice]
  rw [if_neg h1, if_neg h2]
  have hc : ((17 + i : ℕ) : α) - 2 = ((15 + i : ℕ) : α) := by push_cast; ring
  have h30 : ((30 : ℕ) : α) = (30 : α) := by norm_num
  rw [hc, h30, div_mul_cancel₀ _ (by norm_num : (30:α) ≠ 0), Int.floor_natCast]
  simp
  omega

/-- The wind tape selects patch 0 at both outer draws (cursors 0 and 16). -/
theorem windTapeTwice_outer_zero (n : ℕ) (hn : n = 0 ∨ n = 16) (x : α) :
    (⌊windTapeTwice n * x⌋).toNat = 0 := by
  simp only [windTapeTwice]
  rw [if_pos hn]
  simp

/-- Per-patch wind pass on a patch of count 30: 15 inner iterations at
count 30. -/
theorem windPatchUpdate_thirty (m : MathOps α) (tape : ℕ → α)
    (li : List (GrassInst α)) (k : ℕ) :
    windPatchUpdate m 0 tape (⟨30, li⟩ : GrassPatch α) k =
      (⟨30, ((List.range 15).foldl (fun ik _ => windInstStep m 0 30 tape ik) (li, k)).1⟩,
        ((List.range 15).foldl (fun ik _ => windInstStep m 0 30 tape ik) (li, k)).2) := rfl

/-- Trace of one `animateGrass` call on `windSceneTwo` with `windTapeTwice`:
both outer passes select patch 0, the two inner passes enumerate instance
indices 0-14 and 15-29, and all of the first sixteen instances of the patch
end up wind-rewritten. -/
theorem animateGrass_windScene_trace (m : MathOps α) :
    ∃ q, (animateGrass m 0 windSceneTwo windTapeTwice 0).1.grassInstances.get? 0 =
        some q ∧
      ∀ j ∈ Finset.range 16,
        q.instances.get? j = some (windInst m 0 windInstOne) := by
  obtain ⟨hk1, hg1⟩ := windInstFold_arith m 0 30 windTapeTwice
    (List.replicate 30 (windInstOne (α := α))) 0 15 1
    (fun i hi => windTapeTwice_floor_one i hi) (by simp)
  have hl1len : (((List.range 15).foldl
      (fun ik _ => windInstStep m 0 30 windTapeTwice ik)
      (List.replicate 30 (windInstOne (α := α)), 1)).1).length = 30 := by
    have := (windInstFold_close m 0 30 windTapeTwice (List.range 15)
      (List.replicate 30 (windInstOne (α := α)), 1)).1
    simpa using this
  obtain ⟨hk2, hg2⟩ := windInstFold_arith m 0 30 windTapeTwice
    (((List.range 15).foldl (fun ik _ => windInstStep m 0 30 windTapeTwice ik)
      (List.replicate 30 (windInstOne (α := α)), 1)).1) 15 15 17
    (fun i hi => windTapeTwice_floor_two i hi) (by rw [hl1len])
  have hW1 : windPatchUpdate m 0 windTapeTwice (windPatchThirty (α := α)) 1 =
      (⟨30, ((List.range 15).foldl (fun ik _ => windInstStep m 0 30 windTapeTwice ik)
          (List.replicate 30 (windInstOne (α := α)), 1)).1⟩,
        ((List.range 15).foldl (fun ik _ => windInstStep m 0 30 windTapeTwice ik)
          (List.replicate 30 (windInstOne (α := α)), 1)).2) := rfl
  have hW2 := windPatchUpdate_thirty m windTapeTwice
    (((List.range 15).foldl (fun ik _ => windInstStep m 0 30 windTapeTwice ik)
      (List.replicate 30 (windInstOne (α := α)), 1)).1) 17
  -- the first outer step
  have hstep1 := animateGrassStep_spec m 0 windTapeTwice
    ([windPatchThirty, ⟨0, []⟩] : List (GrassPatch α)) 0 0 windPatchThirty
    (windTapeTwice_outer_zero 0 (Or.inl rfl) _) rfl
  rw [show (0 : ℕ) + 1 = 1 from rfl, hW1] at hstep1
  dsimp only at hstep1
  rw [hk1, show (1 : ℕ) + 15 = 16 from rfl] at hstep1
  rw [show (([windPatchThirty, ⟨0, []⟩] : List (GrassPatch α)).set 0
      (⟨30, ((List.range 15).foldl (fun ik _ => windInstStep m 0 30 windTapeTwice ik)
        (List.replicate 30 (windInstOne (α := α)), 1)).1⟩ : GrassPatch α)) =
    [⟨30, ((List.range 15).foldl (fun ik _ => windInstStep m 0 30 windTapeTwice ik)
      (List.replicate 30 (windInstOne (α := α)), 1)).1⟩, ⟨0, []⟩] from rfl] at hstep1
  -- the second outer step
  have hstep2 := animateGrassStep_spec m 0 windTapeTwice
    ([⟨30, ((List.range 15).foldl (fun ik _ => windInstStep m 0 30 windTapeTwice ik)
        (List.replicate 30 (windInstOne (α := α)), 1)).1⟩, ⟨0, []⟩] :
      List (GrassPatch α)) 16 0
    (⟨30, ((List.range 15).foldl (fun ik _ => windInstStep m 0 30 windTapeTwice ik)
      (List.replicate 30 (windInstOne (α := α)), 1)).1⟩ : GrassPatch α)
    (windTapeTwice_outer_zero 16 (Or.inr rfl) _) rfl
  rw [show (16 : ℕ) + 1 = 17 from rfl, hW2] at hstep2
  dsimp only at hstep2
  rw [hk2, show (17 : ℕ) + 15 = 32 from rfl] at hstep2
  -- the whole frame
  have hA : animateGrass m 0 windSceneTwo windTapeTwice 0 =
      ({ windSceneTwo with grassInstances :=
          (animateGrassStep m 0 windTapeTwice (animateGrassStep m 0 windTapeTwice
            ([windPatchThirty, ⟨0, []⟩], 0))).1 },
        (animateGrassStep m 0 windTapeTwice (animateGrassStep m 0 windTapeTwice
          ([windPatchThirty, ⟨0, []⟩], 0))).2) := by
    rw [animateGrass_eq_of_ne_nil m 0 windSceneTwo windTapeTwice 0 rfl]
    rw [show (List.range (min 5 (windSceneTwo (α := α)).grassInstances.length)) =
      [0, 1] from rfl]
    rw [List.foldl_cons, List.foldl_cons, List.foldl_nil]
    rfl
  refine ⟨⟨30, ((List.range 15).foldl (fun ik _ => windInstStep m 0 30 windTapeTwice ik)
    (((List.range 15).foldl (fun ik _ => windInstStep m 0 30 windTapeTwice ik)
      (List.replicate 30 (windInstOne (α := α)), 1)).1, 17)).1⟩, ?_, ?_⟩
  · rw [hA]
    dsimp only
    rw [hstep1, hstep2]
    dsimp only
    rw [List.get?_set_eq]
    rfl
  · intro j hj
    rw [Finset.mem_range] at hj
    dsimp only
    rw [hg2 j]
    by_cases h15 : j < 15
    · rw [if_neg (by omega)]
      rw [hg1 j, if_pos (by omega)]
      rw [show (List.replicate 30 (windInstOne (α := α))).get? j = some windInstOne
        from by
          rw [List.get?_eq_getElem?]
          rw [List.getElem?_replicate]
          rw [if_pos (by omega)]]
      rfl
    · rw [if_pos (by omega)]
      rw [hg1 j, if_neg (by omega)]
      rw [show (List.replicate 30 (windInstOne (α := α))).get? j = some windInstOne
        from by
          rw [List.get?_eq_getElem?]
          rw [List.getElem?_replicate]
          rw [if_pos (by omega)]]
      rfl

/-- C7 counterexample: the outer loop of `animateGrass` draws its five patch
indices independently, so one frame can select the same patch twice; on a
two-patch scene whose tape sends both outer draws to patch 0, sixteen distinct
instances of that single patch are wind-rewritten in one frame, exceeding the
fifteen-per-patch bound. -/
theorem animateGrass_sixteen_changed_in_one_patch :
    ∃ q : GrassPatch ℝ,
      (animateGrass (⟨Real.sin, Real.cos, Real.sqrt, Real.pi⟩ : MathOps ℝ) 0
          windSceneTwo windTapeTwice 0).1.grassInstances.get? 0 = some q ∧
      (windSceneTwo (α := ℝ)).grassInstances.get? 0 = some windPatchThirty ∧
      ∀ j ∈ Finset.range 16,
        q.instances.get? j ≠ (windPatchThirty (α := ℝ)).instances.get? j := by
  obtain ⟨q, hq, hall⟩ :=
    animateGrass_windScene_trace (⟨Real.sin, Real.cos, Real.sqrt, Real.pi⟩ : MathOps ℝ)
  refine ⟨q, hq, rfl, ?_⟩
  intro j hj
  rw [hall j hj]
  have hrepl : (windPatchThirty (α := ℝ)).instances.get? j = some windInstOne := by
    rw [Finset.mem_range] at hj
    show (List.replicate 30 (windInstOne (α := ℝ))).get? j = some windInstOne
    rw [List.get?_eq_getElem?, List.getElem?_replicate, if_pos (by omega)]
  rw [hrepl]
  intro hEq
  have h1 := Option.some_inj.mp hEq
  have h2 : (windInst (⟨Real.sin, Real.cos, Real.sqrt, Real.pi⟩ : MathOps ℝ) 0
      windInstOne).rotX = 0 := by
    simp only [windInst, windInstOne]
    norm_num [Real.sin_zero]
  rw [h1] at h2
  norm_num [windInstOne] at h2

/-- Any feature the seeded feature loop keeps satisfies its own skip guard:
a kept feature is never within 2.5 of the curve at its own z. -/
theorem cellFeatureStep_clear (m : MathOps α) (gx gz : α) (tape : ℕ → α)
    (st : CellGenState α) :
    ∀ f ∈ (cellFeatureStep m gx gz tape st).feats,
      f ∈ st.feats ∨ ¬(|f.posX - getRiverCurveOffset m f.posZ| < 5/2) := by
  simp only [cellFeatureStep]
  split
  · exact fun f hf => Or.inl hf
  · rename_i hc
    intro f hf
    simp only [List.mem_append, List.mem_singleton] at hf
    rcases hf with hf | hf
    · exact Or.inl hf
    · right
      subst hf
      rw [createTerrain_posX, createTerrain_posZ]
      exact hc

/-- Fold form of `cellFeatureStep_clear` over the whole feature loop. -/
theorem cellGenFold_clear (m : MathOps α) (gx gz : α) (tape : ℕ → α)
    (l : List ℕ) (st : CellGenState α) :
    ∀ f ∈ (l.foldl (fun st _ => cellFeatureStep m gx gz tape st) st).feats,
      f ∈ st.feats ∨ ¬(|f.posX - getRiverCurveOffset m f.posZ| < 5/2) := by
  induction l generalizing st with
  | nil => exact fun f hf => Or.inl hf
  | cons b l ih =>
    intro f hf
    rw [List.foldl_cons] at hf
    rcases ih (cellFeatureStep m gx gz tape st) f hf with h | h
    · exact cellFeatureStep_clear m gx gz tape st f h
    · exact Or.inr h

/-- Folding any accumulator step that only appends features with property `P`
preserves that property. -/
theorem genAccFold_clear {β : Type} (step : GenAcc α → β → GenAcc α)
    (P : Feature α → Prop)
    (hstep : ∀ a b, ∀ f ∈ (step a b).feats, f ∈ a.feats ∨ P f)
    (l : List β) (a : GenAcc α) :
    ∀ f ∈ (l.foldl step a).feats, f ∈ a.feats ∨ P f := by
  induction l generalizing a with
  | nil => exact fun f hf => Or.inl hf
  | cons b l ih =>
    intro f hf
    rw [List.foldl_cons] at hf
    rcases ih (step a b) f hf with h | h
    · exact hstep a b f h
    · exact Or.inr h

/-- A left-side feature sits at `min(curveOffset - 2.5, ...) ≤ curveOffset - 2.5`,
so it is at least 2.5 left of the curve at its own z. -/
theorem expandedLeftStep_clear (m : MathOps α) (tape : ℕ → α) (a : GenAcc α) :
    ∀ f ∈ (expandedLeftStep m tape a).feats,
      f ∈ a.feats ∨ ¬(|f.posX - getRiverCurveOffset m f.posZ| < 5/2) := by
  intro f hf
  simp only [expandedLeftStep, List.mem_append, List.mem_singleton] at hf
  rcases hf with hf | hf
  · exact Or.inl hf
  · right
    subst hf
    rw [createTerrain_posX, createTerrain_posZ]
    intro hlt
    rw [abs_lt] at hlt
    have hmin : min (getRiverCurveOffset m ((tape a.k - 1/2) * 18) - 5/2)
        (-(5/2) - getRiverCurveOffset m ((tape a.k - 1/2) * 18) - tape (a.k+1) * 5) ≤
        getRiverCurveOffset m ((tape a.k - 1/2) * 18) - 5/2 := min_le_left _ _
    linarith [hlt.1]

/-- A right-side feature sits at `max(curveOffset + 2.5, ...) ≥ curveOffset + 2.5`,
so it is at least 2.5 right of the curve at its own z. -/
theorem expandedRightStep_clear (m : MathOps α) (tape : ℕ → α) (a : GenAcc α) :
    ∀ f ∈ (expandedRightStep m tape a).feats,
      f ∈ a.feats ∨ ¬(|f.posX - getRiverCurveOffset m f.posZ| < 5/2) := by
  intro f hf
  simp only [expandedRightStep, List.mem_append, List.mem_singleton] at hf
  rcases hf with hf | hf
  · exact Or.inl hf
  · right
    subst hf
    rw [createTerrain_posX, createTerrain_posZ]
    intro hlt
    rw [abs_lt] at hlt
    have hmax : getRiverCurveOffset m ((tape a.k - 1/2) * 18) + 5/2 ≤
        max (getRiverCurveOffset m ((tape a.k - 1/2) * 18) + 5/2)
          (5/2 + getRiverCurveOffset m ((tape a.k - 1/2) * 18) + tape (a.k+1) * 5) :=
      le_max_left _ _
    linarith [hlt.2]

/-- C5: amended buffer invariant per generation path.  The seeded cell loop
(whose skip guard rejects any sampled position within 2.5 of the curve) and
the expanded left/right side loops (whose min/max clamps keep positions at
least 2.5 beyond the curve) never place a feature with lateral distance to
`getRiverCurveOffset` at its own z below 2.5; the two remaining paths - the
near-bank detail loop and the riverbank feature spawning of
`createRiverbankTerrain` - place features essentially at the river edge and
both violate the buffer (see the counterexample). -/
theorem features_respect_river_buffer_by_path (m : MathOps α) :
    (∀ (s : Scene α) (gx gz : α) (tape : ℕ → α) (k : ℕ),
      ∀ f ∈ (cellGenResult m s gx gz tape k).feats,
        ¬(|f.posX - getRiverCurveOffset m f.posZ| < 5/2)) ∧
    (∀ (tape : ℕ → α) (a : GenAcc α),
      ∀ f ∈ (expandedLeftLoop m tape a).feats,
        f ∈ a.feats ∨ ¬(|f.posX - getRiverCurveOffset m f.posZ| < 5/2)) ∧
    (∀ (tape : ℕ → α) (a : GenAcc α),
      ∀ f ∈ (expandedRightLoop m tape a).feats,
        f ∈ a.feats ∨ ¬(|f.posX - getRiverCurveOffset m f.posZ| < 5/2)) := by
  refine ⟨?_, ?_, ?_⟩
  · intro s gx gz tape k f hf
    unfold cellGenResult at hf
    rcases cellGenFold_clear m gx gz tape _ _ f hf with h | h
    · exact absurd h (List.not_mem_nil f)
    · exact h
  · intro tape a
    unfold expandedLeftLoop
    exact genAccFold_clear _ _ (fun a _ => expandedLeftStep_clear m tape a) _ a
  · intro tape a
    unfold expandedRightLoop
    exact genAccFold_clear _ _ (fun a _ => expandedRightStep_clear m tape a) _ a

/-- The one feature a near-bank detail iteration appends, with its position
arguments written out. -/
theorem nearBankStep_feats (m : MathOps α) (i : ℕ) (tape : ℕ → α) (a : GenAcc α) :
    (nearBankStep m i tape a).feats = a.feats ++
      [(createTerrain m
          ((if i % 2 = 0 then (-1 : α) else 1) *
              (3/2 + getRiverCurveOffset m ((tape a.k - 1/2) * 18) * (1/2)) +
            (if i % 2 = 0 then (-1 : α) else 1) * (1/10 + tape (a.k+1) * (3/10)))
          (1/20 + tape (a.k+2) * (3/20))
          ((tape a.k - 1/2) * 18)
          (3/10 + tape (a.k+3) * (4/10))
          2976297 tape (a.k+4)).1] := rfl

/-- The spawning branch of `createRiverbankTerrain` (lines 1095-1104): when the
type draw is not 1 and the spawn draw exceeds 0.6, the call reduces to a
`createTerrainFeatures` riverbank feature at
`centerX + side*(rand*0.3)` with `centerX = side*(riverWidth/2 +
curveOffset*0.5) + side*(bankWidth/2)`, at longitudinal position
`zPos + segmentLength*(rand*0.8)`. -/
theorem createRiverbankTerrain_spawn (m : MathOps α)
    (side zPos curveOffset segmentLength : α) (s : Scene α) (tape : ℕ → α)
    (k : ℕ) (htype : ¬((⌊tape (k+2) * 2⌋).toNat = 1))
    (hspawn : tape (k+3) > 3/5) :
    createRiverbankTerrain m side zPos curveOffset segmentLength s tape k =
      createTerrainFeatures m
        (side * (3/2 + curveOffset * (1/2)) + side * ((3/2 + tape k * (1/2)) / 2) +
          side * (tape (k+3+1) * (3/10)))
        ((1/10 + tape (k+1) * (3/20)) * (1/2) - 2/5)
        (zPos + segmentLength * (tape (k+3+2) * (8/10)))
        (1/5 + tape (k+3+3) * (3/10)) true s tape (k+3+4) := by
  simp only [createRiverbankTerrain]
  rw [if_neg htype, if_pos hspawn]

/-- C5 counterexample: two of the detail paths place features inside the 2.5
river buffer.  (a) The near-bank loop of `createExpandedTerrain` positions a
feature at `side*(riverWidth/2 + curveOffset*0.5) + side*(0.1 + rand*0.3)`,
which follows only half the curve offset; at z = 8 (offset positive and at
most 6.8) the right-side feature lands strictly inside the buffer.  (b) The
riverbank feature spawning of `createRiverbankTerrain` places its feature at
`centerX + side*(rand*0.3)` with `centerX` about `1.5 + bankWidth/2` beyond
half the curve offset; at `zPos = 0` (offset 0) with minimal draws the spawned
feature sits at x = 9/4 < 2.5 from the curve. -/
theorem bank_detail_features_inside_buffer :
    (∃ f ∈ (nearBankStep (⟨Real.sin, Real.cos, Real.sqrt, Real.pi⟩ : MathOps ℝ) 1
        (fun n => if n = 0 then 17/18 else 0) ⟨emptyScene, [], 0⟩).feats,
      |f.posX - getRiverCurveOffset (⟨Real.sin, Real.cos, Real.sqrt, Real.pi⟩ : MathOps ℝ)
          f.posZ| < 5/2) ∧
    (∃ fx fy fz fscale : ℝ,
      createRiverbankTerrain (⟨Real.sin, Real.cos, Real.sqrt, Real.pi⟩ : MathOps ℝ)
          1 0 (getRiverCurveOffset (⟨Real.sin, Real.cos, Real.sqrt, Real.pi⟩ : MathOps ℝ) 0)
          5 emptyScene (fun n => if n = 3 then 7/10 else 0) 0 =
        createTerrainFeatures (⟨Real.sin, Real.cos, Real.sqrt, Real.pi⟩ : MathOps ℝ)
          fx fy fz fscale true emptyScene (fun n => if n = 3 then 7/10 else 0) (0+3+4) ∧
      |fx - getRiverCurveOffset (⟨Real.sin, Real.cos, Real.sqrt, Real.pi⟩ : MathOps ℝ)
          fz| < 5/2) := by
  have hoff0 : getRiverCurveOffset (⟨Real.sin, Real.cos, Real.sqrt, Real.pi⟩ : MathOps ℝ)
      0 = 0 := by
    show Real.sin (0 * (2/100)) * 4 + Real.sin (0 * (5/100)) * 2 +
      Real.sin (0 * (1/10)) * (4/5) = 0
    norm_num
  constructor
  · rw [nearBankStep_feats]
    refine ⟨_, List.mem_append_right _ (List.mem_singleton_self _), ?_⟩
    rw [createTerrain_posX, createTerrain_posZ]
    have hk : (⟨emptyScene, [], 0⟩ : GenAcc ℝ).k = 0 := rfl
    rw [hk]
    rw [show ((if (0:ℕ) = 0 then (17:ℝ)/18 else 0) - 1/2) * 18 = 8 by norm_num]
    rw [show (if (0:ℕ) + 1 = 0 then (17:ℝ)/18 else 0) = 0 by norm_num]
    rw [show (if (1:ℕ) % 2 = 0 then (-1:ℝ) else 1) = 1 by norm_num]
    have hpi := Real.pi_gt_three
    have h1 : (0 : ℝ) < Real.sin (8 * (2/100)) :=
      Real.sin_pos_of_pos_of_lt_pi (by norm_num) (by linarith)
    have h2 : (0 : ℝ) < Real.sin (8 * (5/100)) :=
      Real.sin_pos_of_pos_of_lt_pi (by norm_num) (by linarith)
    have h3 : (0 : ℝ) < Real.sin (8 * (1/10)) :=
      Real.sin_pos_of_pos_of_lt_pi (by norm_num) (by linarith)
    have hpos : 0 < getRiverCurveOffset
        (⟨Real.sin, Real.cos, Real.sqrt, Real.pi⟩ : MathOps ℝ) 8 := by
      show 0 < Real.sin (8 * (2/100)) * 4 + Real.sin (8 * (5/100)) * 2 +
        Real.sin (8 * (1/10)) * (4/5)
      positivity
    have hub : |getRiverCurveOffset
        (⟨Real.sin, Real.cos, Real.sqrt, Real.pi⟩ : MathOps ℝ) 8| ≤ 68/10 :=
      getRiverCurveOffset_abs_le _ (fun x => Real.abs_sin_le_one x) 8
    rw [abs_le] at hub
    rw [abs_lt]
    constructor <;> nlinarith [hub.1, hub.2, hpos]
  · refine ⟨_, _, _, _, createRiverbankTerrain_spawn
      (⟨Real.sin, Real.cos, Real.sqrt, Real.pi⟩ : MathOps ℝ) 1 0
      (getRiverCurveOffset (⟨Real.sin, Real.cos, Real.sqrt, Real.pi⟩ : MathOps ℝ) 0)
      5 emptyScene (fun n => if n = 3 then 7/10 else 0) 0
      (by norm_num) (by norm_num), ?_⟩
    rw [show (0:ℝ) + 5 * ((fun n : ℕ => if n = 3 then (7:ℝ)/10 else 0) (0+3+2) *
      (8/10)) = 0 by norm_num]
    rw [hoff0]
    rw [abs_lt]
    constructor <;> norm_num

/-- One foam particle update of the per-frame animate loop (lines 1636-1670):
drift `z -= 0.05`, shift x by the curve delta, add the sinusoidal wobble,
push back to the band edge when the lateral distance exceeds
`riverHalfWidth = (3/2)*0.9`, and finally recycle to `z = 100` with a fresh
random lateral offset when the drifted z fell below -100 (one ambient draw is
consumed only on recycle). -/
def foamStep (m : MathOps α) (t : α) (tape : ℕ → α) (pk : (α × α) × ℕ) :
    (α × α) × ℕ :=
  let oldZ := pk.1.2
  let newZ := oldZ - 5/100
  let x1 := pk.1.1 + (getRiverCurveOffset m newZ - getRiverCurveOffset m oldZ)
  let x2 := x1 + m.sin (t * 2 + newZ) * (3/1000)
  let x3 := if |x2 - getRiverCurveOffset m newZ| > (3/2) * (9/10) then
      getRiverCurveOffset m newZ +
        (if x2 > getRiverCurveOffset m newZ then (-1 : α) else 1) * ((3/2) * (9/10))
    else x2
  if newZ < -100 then
    ((getRiverCurveOffset m 100 + (tape pk.2 - 1/2) * ((3/2) * (9/10)) * 2, 100),
      pk.2 + 1)
  else
    ((x3, newZ), pk.2)

/-- The whole per-frame foam pass: every particle updated in order with the
ambient cursor threaded through (draws consumed only by recycles). -/
def animateFoam (m : MathOps α) (t : α) (s : Scene α) (tape : ℕ → α) (k : ℕ) :
    Scene α × ℕ :=
  let r := s.foam.foldl (fun (acc : List (α × α) × ℕ) p =>
      let pk := foamStep m t tape (p, acc.2)
      (acc.1 ++ [pk.1], pk.2)) ([], k)
  ({ s with foam := r.1 }, r.2)

/-- After one `foamStep` with a unit-interval draw, the particle is within
`riverHalfWidth` of the curve at its own z. -/
theorem foamStep_band (m : MathOps α) (t : α) (tape : ℕ → α) (p : α × α) (k : ℕ)
    (hr0 : 0 ≤ tape k) (hr1 : tape k < 1) :
    |(foamStep m t tape (p, k)).1.1 -
      getRiverCurveOffset m (foamStep m t tape (p, k)).1.2| ≤ (3/2) * (9/10) := by
  simp only [foamStep]
  split
  · dsimp only
    rw [abs_le]
    constructor <;> nlinarith
  · dsimp only
    split
    · split
      · rw [abs_le]
        constructor <;> nlinarith
      · rw [abs_le]
        constructor <;> nlinarith
    · rename_i hno
      exact le_of_not_lt hno

/-- Fold form of `foamStep_band` over a particle list. -/
theorem foamFold_band (m : MathOps α) (t : α) (tape : ℕ → α)
    (htape : ∀ n, 0 ≤ tape n ∧ tape n < 1) (l : List (α × α))
    (acc : List (α × α) × ℕ)
    (hacc : ∀ q ∈ acc.1, |q.1 - getRiverCurveOffset m q.2| ≤ (3/2) * (9/10)) :
    ∀ q ∈ (l.foldl (fun (acc : List (α × α) × ℕ) p =>
        let pk := foamStep m t tape (p, acc.2)
        (acc.1 ++ [pk.1], pk.2)) acc).1,
      |q.1 - getRiverCurveOffset m q.2| ≤ (3/2) * (9/10) := by
  induction l generalizing acc with
  | nil => exact hacc
  | cons p l ih =>
    intro q hq
    rw [List.foldl_cons] at hq
    refine ih _ ?_ q hq
    intro q2 hq2
    simp only [List.mem_append, List.mem_singleton] at hq2
    rcases hq2 with h | h
    · exact hacc q2 h
    · subst h
      exact foamStep_band m t tape p acc.2 (htape acc.2).1 (htape acc.2).2

/-- C8: foam recycling and band confinement.  A particle whose drifted z falls
below -100 is, in the same update, moved to z = 100 with lateral offset
`(rand - 0.5) * riverHalfWidth * 2` around the curve at 100, hence within
`[-riverHalfWidth, riverHalfWidth]` of it; and after a full foam pass every
particle (recycled or not, thanks to the band clamp) is within
`riverHalfWidth = 1.35` of the curve at its own z. -/
theorem foam_recycle_and_band (m : MathOps α) (t : α) (tape : ℕ → α)
    (htape : ∀ n, 0 ≤ tape n ∧ tape n < 1) :
    (∀ (p : α × α) (k : ℕ), p.2 - 5/100 < -100 →
      (foamStep m t tape (p, k)).1.2 = 100 ∧
      (foamStep m t tape (p, k)).1.1 =
        getRiverCurveOffset m 100 + (tape k - 1/2) * ((3/2) * (9/10)) * 2 ∧
      |(foamStep m t tape (p, k)).1.1 - getRiverCurveOffset m 100| ≤ (3/2) * (9/10)) ∧
    (∀ (s : Scene α) (k : ℕ), ∀ q ∈ (animateFoam m t s tape k).1.foam,
      |q.1 - getRiverCurveOffset m q.2| ≤ (3/2) * (9/10)) := by
  constructor
  · intro p k h
    refine ⟨?_, ?_, ?_⟩
    · simp only [foamStep]
      rw [if_pos h]
    · simp only [foamStep]
      rw [if_pos h]
    · simp only [foamStep]
      rw [if_pos h]
      dsimp only
      rw [abs_le]
      have h0 := (htape k).1
      have h1 := (htape k).2
      constructor <;> nlinarith
  · intro s k q hq
    simp only [animateFoam] at hq
    exact foamFold_band m t tape htape s.foam ([], k)
      (fun q2 hq2 => absurd hq2 (List.not_mem_nil q2)) q hq

/-- Witness for the foam theorem: the recycle conjunct at a particle at
z = -101 with the constant half tape. -/
theorem foam_recycle_witness :
    (foamStep zeroOps 0 (fun _ => (1:ℚ)/2) ((0, -101), 0)).1.2 = 100 ∧
    (foamStep zeroOps 0 (fun _ => (1:ℚ)/2) ((0, -101), 0)).1.1 =
      getRiverCurveOffset zeroOps 100 + ((1:ℚ)/2 - 1/2) * ((3/2) * (9/10)) * 2 ∧
    |(foamStep zeroOps 0 (fun _ => (1:ℚ)/2) ((0, -101), 0)).1.1 -
      getRiverCurveOffset zeroOps 100| ≤ (3/2) * (9/10) :=
  (foam_recycle_and_band zeroOps 0 (fun _ => (1:ℚ)/2)
    (fun _ => ⟨by norm_num, by norm_num⟩)).1 ((0 : ℚ), -101) 0 (by norm_num)

/-- The seeded projections of a terrain feature: the fields drawn from the
cell's deterministic seeded rng (position, height, scale, colour variation),
as opposed to the fields drawn from the ambient stream. -/
def SeededEq (f g : Feature α) : Prop :=
  f.posX = g.posX ∧ f.posZ = g.posZ ∧ f.height = g.height ∧
  f.scale = g.scale ∧ f.colorVar = g.colorVar

/-- The feature-skip guard is decided by the seeded values alone, and is never
triggered for a cell at least 15 from the river axis. -/
theorem cellGuard_far (m : MathOps α) (hs : ∀ x, |m.sin x| ≤ 1) (gx gz s1 s2 : α)
    (hgx : 15 ≤ |gx|) :
    ¬(|gx + (srand m s1 - 1/2) * 10 * (8/10) -
       getRiverCurveOffset m (gz + (srand m s2 - 1/2) * 10 * (8/10))| < 5/2) := by
  have hr0 := srand_nonneg m s1
  have hr1 := srand_lt_one m s1
  have hd : |(srand m s1 - 1/2) * 10 * (8/10)| ≤ 4 := by
    rw [abs_le]
    constructor <;> nlinarith
  have habs : 11 ≤ |gx + (srand m s1 - 1/2) * 10 * (8/10)| := by
    have h2 : |gx| ≤ |gx + (srand m s1 - 1/2) * 10 * (8/10)| +
        |(srand m s1 - 1/2) * 10 * (8/10)| := by
      have := abs_add (gx + (srand m s1 - 1/2) * 10 * (8/10))
        (-((srand m s1 - 1/2) * 10 * (8/10)))
      simp only [abs_neg] at this
      calc |gx| = |gx + (srand m s1 - 1/2) * 10 * (8/10) +
          -((srand m s1 - 1/2) * 10 * (8/10))| := by ring_nf
        _ ≤ _ := this
    linarith
  have hoff := getRiverCurveOffset_abs_le m hs
    (gz + (srand m s2 - 1/2) * 10 * (8/10))
  have h1 : |gx + (srand m s1 - 1/2) * 10 * (8/10)| -
      |getRiverCurveOffset m (gz + (srand m s2 - 1/2) * 10 * (8/10))| ≤
      |gx + (srand m s1 - 1/2) * 10 * (8/10) -
        getRiverCurveOffset m (gz + (srand m s2 - 1/2) * 10 * (8/10))| :=
    abs_sub_abs_le_abs_sub _ _
  intro hlt
  linarith

/-- The kept branch of the feature loop, with the appended feature written
out: all `createTerrain` position arguments come from the seeded rng, while
the trailing tape/cursor feed the ambient draws. -/
theorem cellFeatureStep_kept_eq (m : MathOps α) (gx gz : α) (tape : ℕ → α)
    (st : CellGenState α)
    (hfar : ¬(|gx + (srand m st.seed - 1/2) * 10 * (8/10) -
      getRiverCurveOffset m (gz + (srand m (st.seed + 1) - 1/2) * 10 * (8/10))| < 5/2)) :
    (cellFeatureStep m gx gz tape st).feats = st.feats ++
      [(createTerrain m (gx + (srand m st.seed - 1/2) * 10 * (8/10))
          (1/10 + srand m (st.seed + 2) * (4/10))
          (gz + (srand m (st.seed + 1) - 1/2) * 10 * (8/10))
          (1/2 + srand m (st.seed + 3) * 1)
          (srand m (st.seed + 4) * (1/10) - 1/20) tape st.k).1] := by
  simp only [cellFeatureStep]
  rw [if_neg hfar]

/-- Lockstep step lemma: two feature-loop states with the same seed and
seeded-equal features stay so under `cellFeatureStep`, whatever the ambient
tapes and cursors. -/
theorem cellFeatureStep_seeded (m : MathOps α) (gx gz : α)
    (tape1 tape2 : ℕ → α) (st1 st2 : CellGenState α)
    (hseed : st1.seed = st2.seed)
    (hfeats : List.Forall₂ (SeededEq (α := α)) st1.feats st2.feats) :
    (cellFeatureStep m gx gz tape1 st1).seed =
      (cellFeatureStep m gx gz tape2 st2).seed ∧
    List.Forall₂ (SeededEq (α := α)) (cellFeatureStep m gx gz tape1 st1).feats
      (cellFeatureStep m gx gz tape2 st2).feats := by
  simp only [cellFeatureStep, hseed]
  by_cases hc : |gx + (srand m st2.seed - 1/2) * 10 * (8/10) -
      getRiverCurveOffset m (gz + (srand m (st2.seed + 1) - 1/2) * 10 * (8/10))| < 5/2
  · rw [if_pos hc, if_pos hc]
    exact ⟨rfl, hfeats⟩
  · rw [if_neg hc, if_neg hc]
    refine ⟨rfl, ?_⟩
    dsimp only
    refine List.rel_append hfeats ?_
    refine List.forall₂_cons.mpr ⟨?_, List.Forall₂.nil⟩
    refine ⟨?_, ?_, ?_, ?_, ?_⟩
    · rw [createTerrain_posX, createTerrain_posX]
    · rw [createTerrain_posZ, createTerrain_posZ]
    · rw [createTerrain_height, createTerrain_height]
    · rw [createTerrain_scale, createTerrain_scale]
    · rw [createTerrain_colorVar, createTerrain_colorVar]

/-- Fold form of the lockstep lemma over the whole feature loop. -/
theorem cellGenFold_seeded (m : MathOps α) (gx gz : α) (tape1 tape2 : ℕ → α)
    (l : List ℕ) (st1 st2 : CellGenState α)
    (hseed : st1.seed = st2.seed)
    (hfeats : List.Forall₂ (SeededEq (α := α)) st1.feats st2.feats) :
    (l.foldl (fun st _ => cellFeatureStep m gx gz tape1 st) st1).seed =
      (l.foldl (fun st _ => cellFeatureStep m gx gz tape2 st) st2).seed ∧
    List.Forall₂ (SeededEq (α := α))
      (l.foldl (fun st _ => cellFeatureStep m gx gz tape1 st) st1).feats
      (l.foldl (fun st _ => cellFeatureStep m gx gz tape2 st) st2).feats := by
  induction l generalizing st1 st2 with
  | nil => exact ⟨hseed, hfeats⟩
  | cons b l ih =>
    rw [List.foldl_cons, List.foldl_cons]
    obtain ⟨h1, h2⟩ := cellFeatureStep_seeded m gx gz tape1 tape2 st1 st2 hseed hfeats
    exact ih _ _ h1 h2

/-- C9: amended determinism.  The number of features of a cell and their
seeded projections (position, height, scale, colour variation) are fully
determined by the cell coordinates: two runs of the feature loop on the same
coordinates agree on them whatever ambient tape, cursor and prior scene each
run uses.  (The remaining fields - geometry type, x-variation, scales, yaw,
vegetation and topic flags - are drawn from the ambient stream, see the
counterexample.) -/
theorem cell_features_seeded_deterministic (m : MathOps α) (gx gz : α)
    (s1 s2 : Scene α) (tape1 tape2 : ℕ → α) (k1 k2 : ℕ) :
    List.Forall₂ (SeededEq (α := α))
      (cellGenResult m s1 gx gz tape1 k1).feats
      (cellGenResult m s2 gx gz tape2 k2).feats ∧
    (cellGenResult m s1 gx gz tape1 k1).feats.length =
      (cellGenResult m s2 gx gz tape2 k2).feats.length := by
  unfold cellGenResult
  obtain ⟨h1, h2⟩ := cellGenFold_seeded m gx gz tape1 tape2
    (List.range (cellFeatureCount m gx gz))
    ⟨cellSeed gx gz + 1, [], s1, k1⟩ ⟨cellSeed gx gz + 1, [], s2, k2⟩
    rfl List.Forall₂.nil
  exact ⟨h2, List.Forall₂.length_eq h2⟩

/-- A step of the feature loop never changes the head of a non-empty feature
accumulator. -/
theorem cellFeatureStep_head (m : MathOps α) (gx gz : α) (tape : ℕ → α)
    (st : CellGenState α) (f0 : Feature α) (h : st.feats.head? = some f0) :
    (cellFeatureStep m gx gz tape st).feats.head? = some f0 := by
  simp only [cellFeatureStep]
  split
  · exact h
  · dsimp only
    cases hfe : st.feats with
    | nil => rw [hfe] at h; exact absurd h (by simp)
    | cons a l =>
      rw [hfe] at h
      simpa using h

/-- Fold form of `cellFeatureStep_head`. -/
theorem cellGenFold_head (m : MathOps α) (gx gz : α) (tape : ℕ → α)
    (l : List ℕ) (st : CellGenState α) (f0 : Feature α)
    (h : st.feats.head? = some f0) :
    ((l.foldl (fun st _ => cellFeatureStep m gx gz tape st) st).feats.head? =
      some f0) := by
  induction l generalizing st with
  | nil => exact h
  | cons b l ih =>
    rw [List.foldl_cons]
    exact ih _ (cellFeatureStep_head m gx gz tape st f0 h)

/-- C9 counterexample: the feature loop reads the ambient tape for the
geometry type (`Math.random()` inside `createTerrain`), so two runs on cell
(3,0) with the same empty prior state but different ambient tapes give the
head feature different geometry types (0 against 1): the features are not
fully determined by the coordinate-derived seed. -/
theorem cell_features_tape_dependent :
    ∃ f1 f2 : Feature ℝ,
      (cellGenResult (⟨Real.sin, Real.cos, Real.sqrt, Real.pi⟩ : MathOps ℝ)
        emptyScene 30 0 (fun _ => 0) 0).feats.head? = some f1 ∧
      (cellGenResult (⟨Real.sin, Real.cos, Real.sqrt, Real.pi⟩ : MathOps ℝ)
        emptyScene 30 0 (fun _ => 2/5) 0).feats.head? = some f2 ∧
      f1.terrainType = 0 ∧ f2.terrainType = 1 := by
  have hs : ∀ x, |Real.sin x| ≤ 1 := fun x => Real.abs_sin_le_one x
  have hgx : (15:ℝ) ≤ |(30:ℝ)| := by norm_num
  obtain ⟨hc3, hc6⟩ := cellFeatureCount_bounds
    (⟨Real.sin, Real.cos, Real.sqrt, Real.pi⟩ : MathOps ℝ) (30:ℝ) 0
  obtain ⟨n, hn⟩ : ∃ n, cellFeatureCount
      (⟨Real.sin, Real.cos, Real.sqrt, Real.pi⟩ : MathOps ℝ) (30:ℝ) 0 = n + 1 :=
    ⟨cellFeatureCount (⟨Real.sin, Real.cos, Real.sqrt, Real.pi⟩ : MathOps ℝ)
      (30:ℝ) 0 - 1, by omega⟩
  have hhead : ∀ tape : ℕ → ℝ,
      (cellGenResult (⟨Real.sin, Real.cos, Real.sqrt, Real.pi⟩ : MathOps ℝ)
          emptyScene 30 0 tape 0).feats.head? =
        some (createTerrain (⟨Real.sin, Real.cos, Real.sqrt, Real.pi⟩ : MathOps ℝ)
          (30 + (srand (⟨Real.sin, Real.cos, Real.sqrt, Real.pi⟩ : MathOps ℝ)
            (cellSeed (30:ℝ) 0 + 1) - 1/2) * 10 * (8/10))
          (1/10 + srand (⟨Real.sin, Real.cos, Real.sqrt, Real.pi⟩ : MathOps ℝ)
            (cellSeed (30:ℝ) 0 + 1 + 2) * (4/10))
          (0 + (srand (⟨Real.sin, Real.cos, Real.sqrt, Real.pi⟩ : MathOps ℝ)
            (cellSeed (30:ℝ) 0 + 1 + 1) - 1/2) * 10 * (8/10))
          (1/2 + srand (⟨Real.sin, Real.cos, Real.sqrt, Real.pi⟩ : MathOps ℝ)
            (cellSeed (30:ℝ) 0 + 1 + 3) * 1)
          (srand (⟨Real.sin, Real.cos, Real.sqrt, Real.pi⟩ : MathOps ℝ)
            (cellSeed (30:ℝ) 0 + 1 + 4) * (1/10) - 1/20) tape 0).1 := by
    intro tape
    unfold cellGenResult
    rw [hn, List.range_succ_eq_map, List.foldl_cons]
    apply cellGenFold_head
    rw [cellFeatureStep_kept_eq _ 30 0 tape _
      (cellGuard_far _ hs 30 0 _ _ hgx)]
    rfl
  refine ⟨_, _, hhead (fun _ => 0), hhead (fun _ => 2/5), ?_, ?_⟩
  · rw [createTerrain_terrainType]
    norm_num
  · rw [createTerrain_terrainType]
    show (⌊(2/5:ℝ) * 3⌋).toNat = 1
    have hf : ⌊(2/5:ℝ) * 3⌋ = 1 := by
      rw [Int.floor_eq_iff]
      constructor <;> norm_num
    rw [hf]
    rfl

/-- One exploration waypoint of `animateFlamingoFlight` (lines 1910-1937):
even indices are river points at `z = 40 + (i/8)*80` near the curve (two
ambient draws), odd indices are terrain points at `z = -40 + (i/8)*80` off to
a random side (three ambient draws). -/
def explorePointStep (m : MathOps α) (tape : ℕ → α)
    (ak : List (α × α × α) × ℕ) (i : ℕ) : List (α × α × α) × ℕ :=
  if i % 2 = 0 then
    let z := 40 + ((i : α) / 8) * 80
    let curveOffset := getRiverCurveOffset m z
    let x := curveOffset + (tape ak.2 - 1/2) * 3
    let y := 3/2 + tape (ak.2 + 1) * (1/2)
    (ak.1 ++ [(x, y, z)], ak.2 + 2)
  else
    let side : α := if tape ak.2 > 1/2 then 1 else -1
    let z := -40 + ((i : α) / 8) * 80
    let curveOffset := getRiverCurveOffset m z
    let x := curveOffset + side * (3 + tape (ak.2 + 1) * 5)
    let y := 2 + tape (ak.2 + 2) * (3/2)
    (ak.1 ++ [(x, y, z)], ak.2 + 3)

/-- The eight exploration waypoints of one flight cycle. -/
def explorePoints (m : MathOps α) (tape : ℕ → α) (k : ℕ) : List (α × α × α) :=
  ((List.range 8).foldl (fun ak i => explorePointStep m tape ak i) ([], k)).1

/-- Euclidean distance of two 3d points (the `Math.sqrt` of the summed squared
coordinate differences, lines 1959-1963). -/
def dist3 (m : MathOps α) (p q : α × α × α) : α :=
  m.sqrt ((q.1 - p.1)^2 + (q.2.1 - p.2.1)^2 + (q.2.2 - p.2.2)^2)

/-- The duration of the tween that moves the actor to waypoint `index`
(lines 1957-1966): `5` by default, replaced by `2 + 0.3 * distance` to the
NEXT waypoint whenever one exists. -/
def transitDuration (m : MathOps α) (pts : List (α × α × α)) (index : ℕ) : α :=
  if h : index + 1 < pts.length then
    2 + dist3 m (pts.get ⟨index, by omega⟩) (pts.get ⟨index + 1, h⟩) * (3/10)
  else 5

/-- Each waypoint step appends exactly one point. -/
theorem explorePointStep_len (m : MathOps α) (tape : ℕ → α)
    (ak : List (α × α × α) × ℕ) (i : ℕ) :
    (explorePointStep m tape ak i).1.length = ak.1.length + 1 := by
  simp only [explorePointStep]
  split <;> simp

/-- Fold form: the waypoint loop appends one point per index. -/
theorem exploreFold_len (m : MathOps α) (tape : ℕ → α) (l : List ℕ)
    (ak : List (α × α × α) × ℕ) :
    (l.foldl (fun ak i => explorePointStep m tape ak i) ak).1.length =
      ak.1.length + l.length := by
  induction l generalizing ak with
  | nil => simp
  | cons b l ih =>
    rw [List.foldl_cons, ih, explorePointStep_len, List.length_cons]
    omega

/-- C10 (amended): the flight cycle has eight waypoints; the tween entering
waypoint `index` has duration `2 + 0.3 * distance(p_index, p_{index+1})` -
proportional to the distance of the hop LEAVING its target waypoint, not of
the transit it animates - whenever a next waypoint exists, and the final
tween (into the last waypoint) has the fixed duration 5 whatever distance it
covers. -/
theorem flight_duration_next_hop (m : MathOps α) (tape : ℕ → α) (k : ℕ) :
    (explorePoints m tape k).length = 8 ∧
    (∀ i : ℕ, i + 1 < 8 → ∃ p q : α × α × α,
      (explorePoints m tape k).get? i = some p ∧
      (explorePoints m tape k).get? (i+1) = some q ∧
      transitDuration m (explorePoints m tape k) i = 2 + dist3 m p q * (3/10)) ∧
    transitDuration m (explorePoints m tape k) 7 = 5 := by
  have hlen : (explorePoints m tape k).length = 8 := by
    unfold explorePoints
    rw [exploreFold_len]
    rfl
  refine ⟨hlen, ?_, ?_⟩
  · intro i hi
    have hi1 : i + 1 < (explorePoints m tape k).length := by omega
    have hi0 : i < (explorePoints m tape k).length := by omega
    refine ⟨(explorePoints m tape k).get ⟨i, hi0⟩,
      (explorePoints m tape k).get ⟨i+1, hi1⟩,
      List.get?_eq_get hi0, List.get?_eq_get hi1, ?_⟩
    unfold transitDuration
    rw [dif_pos hi1]
  · unfold transitDuration
    rw [dif_neg (by rw [hlen]; omega)]

/-- A 3d distance over the reals is at least the absolute z-difference. -/
theorem dist3_real_ge (p q : ℝ × ℝ × ℝ) (c : ℝ) (hc : 0 ≤ c)
    (h : (q.2.2 - p.2.2)^2 = c^2) :
    c ≤ dist3 (⟨Real.sin, Real.cos, Real.sqrt, Real.pi⟩ : MathOps ℝ) p q := by
  unfold dist3
  have h1 : c^2 ≤ (q.1 - p.1)^2 + (q.2.1 - p.2.1)^2 + (q.2.2 - p.2.2)^2 := by
    nlinarith [sq_nonneg (q.1 - p.1), sq_nonneg (q.2.1 - p.2.1)]
  calc c = Real.sqrt (c^2) := (Real.sqrt_sq hc).symm
    _ ≤ _ := Real.sqrt_le_sqrt h1

/-- C10 counterexample: with the all-zero tape, the transit from waypoint 6
(a river point at z = 100) to waypoint 7 (a terrain point at z = 30) is the
final tween and gets the fixed duration 5, yet the two waypoints are at least
70 apart, so `2 + 0.3 * distance ≥ 23`: the last transit's duration is not
`base + distance * factor` for the pair it moves between. -/
theorem flight_last_transit_fixed_not_distance :
    ∃ p q : ℝ × ℝ × ℝ,
      (explorePoints (⟨Real.sin, Real.cos, Real.sqrt, Real.pi⟩ : MathOps ℝ)
        (fun _ => 0) 0).get? 6 = some p ∧
      (explorePoints (⟨Real.sin, Real.cos, Real.sqrt, Real.pi⟩ : MathOps ℝ)
        (fun _ => 0) 0).get? 7 = some q ∧
      transitDuration (⟨Real.sin, Real.cos, Real.sqrt, Real.pi⟩ : MathOps ℝ)
        (explorePoints (⟨Real.sin, Real.cos, Real.sqrt, Real.pi⟩ : MathOps ℝ)
          (fun _ => 0) 0) 7 = 5 ∧
      transitDuration (⟨Real.sin, Real.cos, Real.sqrt, Real.pi⟩ : MathOps ℝ)
        (explorePoints (⟨Real.sin, Real.cos, Real.sqrt, Real.pi⟩ : MathOps ℝ)
          (fun _ => 0) 0) 7 ≠ 2 + dist3 (⟨Real.sin, Real.cos, Real.sqrt, Real.pi⟩ :
            MathOps ℝ) p q * (3/10) := by
  have hlen : (explorePoints (⟨Real.sin, Real.cos, Real.sqrt, Real.pi⟩ : MathOps ℝ)
      (fun _ => 0) 0).length = 8 := by
    unfold explorePoints
    rw [exploreFold_len]
    rfl
  have hdur : transitDuration (⟨Real.sin, Real.cos, Real.sqrt, Real.pi⟩ : MathOps ℝ)
      (explorePoints (⟨Real.sin, Real.cos, Real.sqrt, Real.pi⟩ : MathOps ℝ)
        (fun _ => 0) 0) 7 = 5 := by
    unfold transitDuration
    rw [dif_neg (by rw [hlen]; omega)]
  refine ⟨(getRiverCurveOffset (⟨Real.sin, Real.cos, Real.sqrt, Real.pi⟩ : MathOps ℝ)
        (40 + ((6:ℕ) : ℝ)/8 * 80) + ((0:ℝ) - 1/2) * 3,
      3/2 + (0:ℝ) * (1/2), 40 + ((6:ℕ) : ℝ)/8 * 80),
    (getRiverCurveOffset (⟨Real.sin, Real.cos, Real.sqrt, Real.pi⟩ : MathOps ℝ)
        (-40 + ((7:ℕ) : ℝ)/8 * 80) +
        (if (0:ℝ) > 1/2 then (1:ℝ) else -1) * (3 + (0:ℝ) * 5),
      2 + (0:ℝ) * (3/2), -40 + ((7:ℕ) : ℝ)/8 * 80),
    rfl, rfl, hdur, ?_⟩
  rw [hdur]
  intro heq
  have hge := dist3_real_ge
    (getRiverCurveOffset (⟨Real.sin, Real.cos, Real.sqrt, Real.pi⟩ : MathOps ℝ)
        (40 + ((6:ℕ) : ℝ)/8 * 80) + ((0:ℝ) - 1/2) * 3,
      3/2 + (0:ℝ) * (1/2), 40 + ((6:ℕ) : ℝ)/8 * 80)
    (getRiverCurveOffset (⟨Real.sin, Real.cos, Real.sqrt, Real.pi⟩ : MathOps ℝ)
        (-40 + ((7:ℕ) : ℝ)/8 * 80) +
        (if (0:ℝ) > 1/2 then (1:ℝ) else -1) * (3 + (0:ℝ) * 5),
      2 + (0:ℝ) * (3/2), -40 + ((7:ℕ) : ℝ)/8 * 80)
    70 (by norm_num) (by push_cast; norm_num)
  linarith

end Scene3D
